import Mathlib

/-!
Shallow embedding of the Firebase-to-relational synchronization subsystem of
FASTPAY_BASE (`BACKEND/api/utils.py`): the external data fetchers
(`get_firebase_*_for_device`), the per-device reconciler
(`hard_sync_device_from_firebase`), the messages-only variant
(`sync_messages_from_firebase`) and the fleet orchestrator
(`hard_sync_all_devices_from_firebase`).

Modelling conventions:
* Loosely-typed Firebase JSON values are modelled by `FVal`; Python truthiness
  and `a or b` are modelled by `truthy` and `pyOr`.
* Firebase dictionaries are association lists `List (String × FVal)` in
  insertion order (Python dicts preserve insertion order).
* The Django ORM tables are lists of rows; `get_or_create` keyed lookups are
  `List.find?` on the natural key.
* The Firebase Admin SDK environment is `FirebaseEnv`: `available` models the
  module-level `FIREBASE_AVAILABLE` flag, `initOk` models whether
  `initialize_firebase()` succeeds, and `store` maps a database path to the
  outcome of `db.reference(path).get()`.
* `django.utils.timezone.now()` is an explicit `now : Nat` parameter.
* The `assigned_to` many-to-many admin assignment (a side table no claim
  mentions) is not modelled.
-/

/-- A loosely-typed value as delivered by the Firebase Realtime Database. -/
inductive FVal where
  | vstr (s : String)
  | vbool (b : Bool)
  | vint (n : Int)
  | vnull
  | vlist (xs : List FVal)
  | vdict (kvs : List (String × FVal))

/-- Python truthiness of an `FVal` (`bool(x)`). -/
def truthy : FVal → Bool
  | .vstr s => !s.isEmpty
  | .vbool b => b
  | .vint n => n != 0
  | .vnull => false
  | .vlist xs => !xs.isEmpty
  | .vdict kvs => !kvs.isEmpty

/-- Python `a or b`: the first operand when truthy, otherwise the second. -/
def pyOr (a b : FVal) : FVal := if truthy a then a else b

/-- Python `d.get(k, default)` on an association-list dictionary. -/
def dictGetD (kvs : List (String × FVal)) (k : String) (dflt : FVal) : FVal :=
  match kvs.find? (fun kv => kv.1 == k) with
  | some kv => kv.2
  | none => dflt

/-- Python `d.get(k)` (default `None`). -/
def dictGet (kvs : List (String × FVal)) (k : String) : FVal :=
  dictGetD kvs k .vnull

/-- Python `k in d` on a dictionary. -/
def dictHas (kvs : List (String × FVal)) (k : String) : Bool :=
  kvs.any (fun kv => kv.1 == k)

/-- Python `d[k] = v`: overwrite in place or append, preserving insertion order. -/
def dictSet (kvs : List (String × FVal)) (k : String) (v : FVal) : List (String × FVal) :=
  if dictHas kvs k then kvs.map (fun kv => if kv.1 == k then (k, v) else kv)
  else kvs ++ [(k, v)]

/-- Python `d.update(other)` on dictionaries. -/
def dictUpdate (kvs other : List (String × FVal)) : List (String × FVal) :=
  other.foldl (fun acc kv => dictSet acc kv.1 kv.2) kvs

/-- Decimal digits to a natural number (helper for `int(...)` / `isdigit`). -/
def digitsToNat (cs : List Char) : Nat :=
  cs.foldl (fun a c => a * 10 + (c.toNat - 48)) 0

/-- Python `str.isdigit()`: nonempty and all decimal digits. -/
def pyIsDigit (s : String) : Bool :=
  !s.data.isEmpty && s.data.all Char.isDigit

/-- Whitespace stripped by Python `int(str)`. -/
def isPySpace (c : Char) : Bool :=
  c == ' ' || c == '\t' || c == '\n' || c == '\r'

/-- Python `int(s)` on a string: `some` the parsed integer, `none` when the
call raises `ValueError`. -/
def parseIntStr (s : String) : Option Int :=
  let cs := ((s.data.dropWhile isPySpace).reverse.dropWhile isPySpace).reverse
  match cs with
  | [] => none
  | c :: rest =>
    if c == '-' then
      if !rest.isEmpty && rest.all Char.isDigit then some (-(digitsToNat rest : Int)) else none
    else if c == '+' then
      if !rest.isEmpty && rest.all Char.isDigit then some ((digitsToNat rest : Int)) else none
    else if (c :: rest).all Char.isDigit then some ((digitsToNat (c :: rest) : Int)) else none

/-- Split off everything before the first occurrence of `sep`. -/
def splitFirst (sep : Char) : List Char → Option (List Char × List Char)
  | [] => none
  | c :: cs =>
    if c == sep then some ([], cs)
    else (splitFirst sep cs).map (fun p => (c :: p.1, p.2))

/-- Python `s.split(sep, 2)`: at most three parts. -/
def pySplit2 (sep : Char) (s : String) : List String :=
  match splitFirst sep s.data with
  | none => [s]
  | some (a, rest) =>
    match splitFirst sep rest with
    | none => [String.mk a, String.mk rest]
    | some (b, rest2) => [String.mk a, String.mk b, String.mk rest2]

/-- Python `s.lower()` (ASCII is all the source compares against). -/
def pyLower (s : String) : String :=
  String.mk (s.data.map Char.toLower)

/-- Outcome of one `db.reference(path).get()` call against the external store.
Collection-valued paths are modelled at dictionary granularity. -/
inductive PathResult where
  | data (kvs : List (String × FVal))
  | empty
  | raise

/-- Whether the `.get()` call on this path raised. -/
def PathResult.isRaise : PathResult → Bool
  | .raise => true
  | _ => false

/-- The Firebase Admin SDK environment seen by the sync code. -/
structure FirebaseEnv where
  available : Bool
  initOk : Bool
  store : String → PathResult

/-- The path-probing loop shared by all fetchers: try candidate paths in
order, return the first truthy result, treat per-path exceptions as "no
data", and fall through to the empty dictionary. -/
def tryPaths (store : String → PathResult) : List String → List (String × FVal)
  | [] => []
  | p :: rest =>
    match store p with
    | .data kvs => if kvs.isEmpty then tryPaths store rest else kvs
    | .empty => tryPaths store rest
    | .raise => tryPaths store rest

/-- Fetch raw data for a candidate-path list: a failed
`initialize_firebase()` is caught and yields the empty dictionary. -/
def fetchData (env : FirebaseEnv) (paths : List String) : List (String × FVal) :=
  if env.initOk then tryPaths env.store paths else []

/-- Candidate paths for device info (utils.py lines 269-274). -/
def deviceInfoPathsFor (d : String) : List String :=
  ["device/" ++ d, "fastpay/" ++ d, "fastpay/testing/" ++ d, "fastpay/running/" ++ d]

/-- Candidate paths for messages (utils.py lines 132-137). -/
def messagePathsFor (d : String) : List String :=
  ["fastpay/" ++ d ++ "/messages", "message/" ++ d,
   "fastpay/testing/" ++ d ++ "/messages", "fastpay/running/" ++ d ++ "/messages"]

/-- Candidate paths for notifications (utils.py lines 181-187). -/
def notificationPathsFor (d : String) : List String :=
  ["device/" ++ d ++ "/Notification", "fastpay/" ++ d ++ "/Notification",
   "notification/" ++ d,
   "fastpay/testing/" ++ d ++ "/Notification", "fastpay/running/" ++ d ++ "/Notification"]

/-- Candidate paths for contacts (utils.py lines 225-231). -/
def contactPathsFor (d : String) : List String :=
  ["device/" ++ d ++ "/Contact", "fastpay/" ++ d ++ "/Contact",
   "contact/" ++ d,
   "fastpay/testing/" ++ d ++ "/Contact", "fastpay/running/" ++ d ++ "/Contact"]

/-- Sort key used when truncating messages: `int(x) if x.isdigit() else 0`. -/
def tsSortKey (s : String) : Int :=
  if pyIsDigit s then (digitsToNat s.data : Int) else 0

/-- Insert into a list sorted descending by `tsSortKey` (models Python
`sorted(keys, key=..., reverse=True)`; iteration order among equal keys is
not relied upon by any claim). -/
def insertDescBy (x : String) : List String → List String
  | [] => [x]
  | y :: ys => if tsSortKey x > tsSortKey y then x :: y :: ys else y :: insertDescBy x ys

/-- Keys sorted descending by numeric timestamp. -/
def sortKeysDesc (l : List String) : List String :=
  l.foldr insertDescBy []

/-- The `limit` truncation of `get_firebase_messages_for_device`: applied only
when `limit` is truthy (so `limit=0`/`None` are no-ops) and messages nonempty;
keeps the `limit` most recent keys, rebuilding the dictionary in sorted order. -/
def applyLimit (limit : Option Nat) (messages : List (String × FVal)) : List (String × FVal) :=
  match limit with
  | none => messages
  | some n =>
    if n != 0 && !messages.isEmpty then
      ((sortKeysDesc (messages.map (fun kv => kv.1))).take n).map
        (fun k => (k, dictGet messages k))
    else messages

/-- `get_firebase_messages_for_device` (utils.py lines 110-157). `.error`
models the `ImportError` raised when the SDK is not installed; every other
failure is soft (empty dictionary). -/
def get_firebase_messages_for_device (env : FirebaseEnv) (device_id : String)
    (limit : Option Nat) : Except String (List (String × FVal)) :=
  if !env.available then .error "Firebase Admin SDK not available"
  else .ok (applyLimit limit (fetchData env (messagePathsFor device_id)))

/-- `get_firebase_notifications_for_device` (utils.py lines 160-201). -/
def get_firebase_notifications_for_device (env : FirebaseEnv) (device_id : String) :
    Except String (List (String × FVal)) :=
  if !env.available then .error "Firebase Admin SDK not available"
  else .ok (fetchData env (notificationPathsFor device_id))

/-- `get_firebase_contacts_for_device` (utils.py lines 204-245). -/
def get_firebase_contacts_for_device (env : FirebaseEnv) (device_id : String) :
    Except String (List (String × FVal)) :=
  if !env.available then .error "Firebase Admin SDK not available"
  else .ok (fetchData env (contactPathsFor device_id))

/-- `get_firebase_device_info` (utils.py lines 248-288). -/
def get_firebase_device_info (env : FirebaseEnv) (device_id : String) :
    Except String (List (String × FVal)) :=
  if !env.available then .error "Firebase Admin SDK not available"
  else .ok (fetchData env (deviceInfoPathsFor device_id))

/-- A `Device` row: identity, profile fields and sync bookkeeping
(models `api/models.py` `Device` as used by the sync subsystem). -/
structure DeviceRow where
  device_id : String
  name : FVal
  model : FVal
  phone : FVal
  code : FVal
  is_active : Bool
  last_seen : FVal
  battery_percentage : FVal
  current_phone : FVal
  current_identifier : FVal
  time : FVal
  bankcard : FVal
  system_info : FVal
  sync_status : String
  sync_error_message : Option String
  last_sync_at : Option Nat
  last_hard_sync_at : Option Nat
  messages_last_synced_at : Option Nat
  notifications_last_synced_at : Option Nat
  contacts_last_synced_at : Option Nat
  sync_metadata : List (String × Nat)

/-- A `Message` row; natural key `(device_id, timestamp)`. -/
structure MessageRow where
  device_id : String
  timestamp : Int
  message_type : FVal
  phone : FVal
  body : FVal
  read : FVal

/-- A `Notification` row; natural key `(device_id, timestamp)`. -/
structure NotificationRow where
  device_id : String
  timestamp : Int
  package_name : FVal
  title : FVal
  text : FVal

/-- Parsed contact fields as extracted from one Firebase contact entry. -/
structure ContactFields where
  contact_id : FVal
  cname : FVal
  display_name : FVal
  phones : FVal
  emails : FVal
  addresses : FVal
  websites : FVal
  im_accounts : FVal
  photo_uri : FVal
  thumbnail_uri : FVal
  company : FVal
  job_title : FVal
  department : FVal
  birthday : FVal
  anniversary : FVal
  notes : FVal
  last_contacted : FVal
  times_contacted : FVal
  is_starred : FVal
  nickname : FVal
  phonetic_name : FVal

/-- A `Contact` row; natural key `(device_id, phone_number)`. -/
structure ContactRow where
  device_id : String
  phone_number : String
  fields : ContactFields

/-- The relational store (SQLite/PostgreSQL behind the Django ORM). -/
structure DB where
  devices : List DeviceRow
  messages : List MessageRow
  notifications : List NotificationRow
  contacts : List ContactRow

/-- `Device.objects.get(device_id=d)` (first row with the key; the sync
subsystem never creates duplicate device ids). -/
def findDevice (l : List DeviceRow) (d : String) : Option DeviceRow :=
  l.find? (fun x => x.device_id == d)

/-- Keyed lookup backing `Message.objects.get_or_create(device=..., timestamp=...)`. -/
def findMessage (l : List MessageRow) (d : String) (ts : Int) : Option MessageRow :=
  l.find? (fun m => m.device_id == d && m.timestamp == ts)

/-- Keyed lookup for notifications. -/
def findNotification (l : List NotificationRow) (d : String) (ts : Int) : Option NotificationRow :=
  l.find? (fun n => n.device_id == d && n.timestamp == ts)

/-- Keyed lookup for contacts. -/
def findContact (l : List ContactRow) (d : String) (ph : String) : Option ContactRow :=
  l.find? (fun c => c.device_id == d && c.phone_number == ph)

/-- Save a modified device row back (applies `f` to the row(s) with the key). -/
def updDevices (l : List DeviceRow) (d : String) (f : DeviceRow → DeviceRow) : List DeviceRow :=
  l.map (fun x => if x.device_id == d then f x else x)

/-- Save a modified device row back into the store. -/
def updateDevice (db : DB) (d : String) (f : DeviceRow → DeviceRow) : DB :=
  { db with devices := updDevices db.devices d f }

/-- Overwrite the fields of the message row(s) with the given natural key
(models `message.save()` after field assignment). -/
def overwriteMessage (l : List MessageRow) (d : String) (ts : Int)
    (t p b r : FVal) : List MessageRow :=
  l.map (fun m =>
    if m.device_id == d && m.timestamp == ts then
      { m with message_type := t, phone := p, body := b, read := r }
    else m)

/-- Overwrite the fields of the notification row(s) with the given key. -/
def overwriteNotification (l : List NotificationRow) (d : String) (ts : Int)
    (pkg ti tx : FVal) : List NotificationRow :=
  l.map (fun n =>
    if n.device_id == d && n.timestamp == ts then
      { n with package_name := pkg, title := ti, text := tx }
    else n)

/-- Overwrite the fields of the contact row(s) with the given key. -/
def overwriteContact (l : List ContactRow) (d : String) (ph : String)
    (f : ContactFields) : List ContactRow :=
  l.map (fun c =>
    if c.device_id == d && c.phone_number == ph then { c with fields := f } else c)

/-- The result dictionary of `hard_sync_device_from_firebase` (lines 306-323). -/
structure SyncResult where
  device_id : String
  device_created : Bool := false
  device_updated : Bool := false
  messages_fetched : Nat := 0
  messages_created : Nat := 0
  messages_updated : Nat := 0
  messages_skipped : Nat := 0
  notifications_fetched : Nat := 0
  notifications_created : Nat := 0
  notifications_updated : Nat := 0
  notifications_skipped : Nat := 0
  contacts_fetched : Nat := 0
  contacts_created : Nat := 0
  contacts_updated : Nat := 0
  contacts_skipped : Nat := 0
  errors : List String := []

/-- Normalization of the heterogeneous `isActive` flag (lines 346-350). -/
def normalizeIsActive (v : FVal) : Bool :=
  match v with
  | .vstr s =>
    let l := pyLower s
    l == "opened" || l == "active" || l == "true" || l == "1" || l == "yes"
  | _ => truthy v

/-- Normalize a raw message entry into `(type, phone, body, read)`:
`some` for the structured-dict and tilde-string shapes, `none` for the
unexpected-shape `else` branch (lines 414-428). -/
def parseMsgData : FVal → Option (FVal × FVal × FVal × FVal)
  | .vdict kvs =>
    some (dictGetD kvs "type" (.vstr "received"),
          dictGetD kvs "phone" (.vstr ""),
          dictGetD kvs "body" (.vstr ""),
          dictGetD kvs "read" (.vbool false))
  | .vstr s =>
    let parts := pySplit2 '~' s
    some (.vstr (parts.getD 0 "received"),
          .vstr (parts.getD 1 ""),
          .vstr (parts.getD 2 ""),
          .vbool false)
  | _ => none

/-- Is this `FVal` exactly the given Python string? -/
def isStrEq (v : FVal) (s : String) : Bool :=
  match v with
  | .vstr t => t == s
  | _ => false

/-- `if message_type not in ['received', 'sent']: message_type = 'received'`
(lines 430-431). -/
def normMsgType (v : FVal) : FVal :=
  if isStrEq v "received" || isStrEq v "sent" then v else .vstr "received"

/-- The per-entry error string for a message entry whose timestamp key does
not parse (`int(timestamp_str)` raises `ValueError`, caught at line 456). -/
def msgErrString (k : String) : String :=
  "Error processing message " ++ k ++ ": invalid literal for int() with base 10: " ++ k

/-- Loop body of the message sync loop of `hard_sync_device_from_firebase`
(lines 409-459), threading the result dictionary and the store. -/
def processMessage (u : Bool) (d : String) (acc : SyncResult × DB)
    (entry : String × FVal) : SyncResult × DB :=
  let res := acc.1
  let db := acc.2
  match parseIntStr entry.1 with
  | none => ({ res with errors := res.errors ++ [msgErrString entry.1] }, db)
  | some ts =>
    match parseMsgData entry.2 with
    | none => ({ res with messages_skipped := res.messages_skipped + 1 }, db)
    | some (t0, p, b, r) =>
      let t := normMsgType t0
      match findMessage db.messages d ts with
      | none =>
        ({ res with messages_created := res.messages_created + 1 },
         { db with messages := db.messages ++ [⟨d, ts, t, p, b, r⟩] })
      | some _ =>
        if u then
          ({ res with messages_updated := res.messages_updated + 1 },
           { db with messages := overwriteMessage db.messages d ts t p b r })
        else
          ({ res with messages_skipped := res.messages_skipped + 1 }, db)

/-- Normalize a raw notification entry into `(package_name, title, text)`
(lines 470-482); `none` is the unexpected-shape `else` branch. -/
def parseNotifData : FVal → Option (FVal × FVal × FVal)
  | .vdict kvs =>
    some (pyOr (dictGetD kvs "package" (.vstr "")) (dictGetD kvs "packageName" (.vstr "")),
          dictGetD kvs "title" (.vstr ""),
          pyOr (dictGetD kvs "text" (.vstr "")) (dictGetD kvs "body" (.vstr "")))
  | .vstr s =>
    let parts := pySplit2 '~' s
    some (.vstr (parts.getD 0 ""), .vstr (parts.getD 1 ""), .vstr (parts.getD 2 ""))
  | _ => none

/-- The per-entry error string for a notification entry with an unparsable
timestamp key (caught at line 508). -/
def notifErrString (k : String) : String :=
  "Error processing notification " ++ k ++ ": invalid literal for int() with base 10: " ++ k

/-- Loop body of the notification sync loop (lines 465-511). An entry whose
normalized package name is falsy is passed over entirely (`continue` at
line 485): no row, no count, no error. -/
def processNotification (u : Bool) (d : String) (acc : SyncResult × DB)
    (entry : String × FVal) : SyncResult × DB :=
  let res := acc.1
  let db := acc.2
  match parseIntStr entry.1 with
  | none => ({ res with errors := res.errors ++ [notifErrString entry.1] }, db)
  | some ts =>
    match parseNotifData entry.2 with
    | none => ({ res with notifications_skipped := res.notifications_skipped + 1 }, db)
    | some (pkg, ti, tx) =>
      if !truthy pkg then (res, db)
      else
        match findNotification db.notifications d ts with
        | none =>
          ({ res with notifications_created := res.notifications_created + 1 },
           { db with notifications := db.notifications ++ [⟨d, ts, pkg, ti, tx⟩] })
        | some _ =>
          if u then
            ({ res with notifications_updated := res.notifications_updated + 1 },
             { db with notifications := overwriteNotification db.notifications d ts pkg ti tx })
          else
            ({ res with notifications_skipped := res.notifications_skipped + 1 }, db)

/-- `isinstance(x, list) ? x : []` coercion applied to the structured
sub-lists before storing (lines 579-583 and 606-610). -/
def asList (v : FVal) : FVal :=
  match v with
  | .vlist xs => .vlist xs
  | _ => .vlist []

/-- The `last_contacted` conversion (lines 566-570); note Python `bool` is an
`int` instance, so booleans survive the `isinstance` filter. -/
def convLastContacted : FVal → FVal
  | .vstr s => if pyIsDigit s then .vint ((digitsToNat s.data : Int)) else .vnull
  | .vint n => .vint n
  | .vbool b => .vbool b
  | .vnull => .vnull
  | _ => .vnull

/-- Extract contact fields from one Firebase contact entry (lines 517-570):
the structured-dict shape, else the simple phone-number-only shape. -/
def parseContactData (phone_number : String) : FVal → ContactFields
  | .vdict kvs =>
    { contact_id := pyOr (dictGet kvs "contactId") (dictGetD kvs "id" (.vstr phone_number))
    , cname := dictGetD kvs "name" (.vstr "")
    , display_name := pyOr (dictGetD kvs "displayName" (.vstr "")) (dictGetD kvs "display_name" (.vstr ""))
    , phones := dictGetD kvs "phones" (.vlist [])
    , emails := dictGetD kvs "emails" (.vlist [])
    , addresses := dictGetD kvs "addresses" (.vlist [])
    , websites := dictGetD kvs "websites" (.vlist [])
    , im_accounts := pyOr (dictGetD kvs "imAccounts" (.vlist [])) (dictGetD kvs "im_accounts" (.vlist []))
    , photo_uri := pyOr (dictGetD kvs "photoUri" (.vstr "")) (dictGetD kvs "photo_uri" (.vstr ""))
    , thumbnail_uri := pyOr (dictGetD kvs "thumbnailUri" (.vstr "")) (dictGetD kvs "thumbnail_uri" (.vstr ""))
    , company := dictGetD kvs "company" (.vstr "")
    , job_title := pyOr (dictGetD kvs "jobTitle" (.vstr "")) (dictGetD kvs "job_title" (.vstr ""))
    , department := dictGetD kvs "department" (.vstr "")
    , birthday := dictGetD kvs "birthday" (.vstr "")
    , anniversary := dictGetD kvs "anniversary" (.vstr "")
    , notes := dictGetD kvs "notes" (.vstr "")
    , last_contacted := pyOr (dictGetD kvs "lastContacted" (.vstr "")) (dictGetD kvs "last_contacted" (.vstr ""))
    , times_contacted := pyOr (dictGetD kvs "timesContacted" (.vint 0)) (dictGetD kvs "times_contacted" (.vint 0))
    , is_starred := pyOr (dictGetD kvs "isStarred" (.vbool false)) (dictGetD kvs "is_starred" (.vbool false))
    , nickname := dictGetD kvs "nickname" (.vstr "")
    , phonetic_name := pyOr (dictGetD kvs "phoneticName" (.vstr "")) (dictGetD kvs "phonetic_name" (.vstr "")) }
  | _ =>
    { contact_id := .vstr phone_number
    , cname := .vstr "", display_name := .vstr ""
    , phones := .vlist [], emails := .vlist [], addresses := .vlist []
    , websites := .vlist [], im_accounts := .vlist []
    , photo_uri := .vstr "", thumbnail_uri := .vstr ""
    , company := .vstr "", job_title := .vstr "", department := .vstr ""
    , birthday := .vstr "", anniversary := .vstr "", notes := .vstr ""
    , last_contacted := .vnull, times_contacted := .vint 0
    , is_starred := .vbool false, nickname := .vstr "", phonetic_name := .vstr "" }

/-- The field tuple actually persisted for a contact: `last_contacted`
converted, the five sub-lists coerced to lists. -/
def storedContactFields (f : ContactFields) : ContactFields :=
  { f with
    last_contacted := convLastContacted f.last_contacted
  , phones := asList f.phones
  , emails := asList f.emails
  , addresses := asList f.addresses
  , websites := asList f.websites
  , im_accounts := asList f.im_accounts }

/-- Loop body of the contact sync loop (lines 517-632). No representable
entry reaches the per-entry `except` handler: extraction, conversion and
the keyed upsert are total on `FVal` values. -/
def processContact (u : Bool) (d : String) (acc : SyncResult × DB)
    (entry : String × FVal) : SyncResult × DB :=
  let res := acc.1
  let db := acc.2
  let f := storedContactFields (parseContactData entry.1 entry.2)
  match findContact db.contacts d entry.1 with
  | none =>
    ({ res with contacts_created := res.contacts_created + 1 },
     { db with contacts := db.contacts ++ [⟨d, entry.1, f⟩] })
  | some _ =>
    if u then
      ({ res with contacts_updated := res.contacts_updated + 1 },
       { db with contacts := overwriteContact db.contacts d entry.1 f })
    else
      ({ res with contacts_skipped := res.contacts_skipped + 1 }, db)

/-- The device-row field values used when creating a new device from Firebase
info (the `defaults` dict, lines 352-367). -/
def deviceDefaults (d : String) (info : List (String × FVal)) (isAct : Bool) : DeviceRow :=
  { device_id := d
  , name := pyOr (dictGet info "name") (dictGet info "deviceName")
  , model := dictGet info "model"
  , phone := dictGet info "phone"
  , code := dictGet info "code"
  , is_active := isAct
  , last_seen := pyOr (dictGet info "time") (dictGet info "lastSeen")
  , battery_percentage := dictGet info "batteryPercentage"
  , current_phone := pyOr (dictGet info "currentPhone") (dictGet info "phone")
  , current_identifier := dictGet info "currentIdentifier"
  , time := dictGet info "time"
  , bankcard := dictGetD info "bankcard" (.vstr "BANKCARD")
  , system_info := dictGetD info "systemInfo" (.vdict [])
  , sync_status := "syncing"
  , sync_error_message := none
  , last_sync_at := none, last_hard_sync_at := none
  , messages_last_synced_at := none, notifications_last_synced_at := none
  , contacts_last_synced_at := none, sync_metadata := [] }

/-- Merge (not replace) the free-form `system_info` blob (lines 392-395).
`systemInfo` payloads are dict-shaped; a non-dict payload, which would raise
in Python, is not representable at this point of the model. -/
def mergeSystemInfo (old newV : FVal) : FVal :=
  let cur := match pyOr old (.vdict []) with
    | .vdict a => a
    | _ => []
  match newV with
  | .vdict b => .vdict (dictUpdate cur b)
  | _ => .vdict cur

/-- The update applied to an existing device when `update_existing` is true
(lines 380-399): `x or old` refresh per field, membership-guarded battery,
merged system info, status forced to `syncing`. -/
def deviceUpdateRow (info : List (String × FVal)) (isAct : Bool) (dev : DeviceRow) : DeviceRow :=
  { dev with
    name := pyOr (pyOr (dictGet info "name") (dictGet info "deviceName")) dev.name
  , model := pyOr (dictGet info "model") dev.model
  , phone := pyOr (dictGet info "phone") dev.phone
  , code := pyOr (dictGet info "code") dev.code
  , is_active := isAct
  , last_seen := pyOr (pyOr (dictGet info "time") (dictGet info "lastSeen")) dev.last_seen
  , battery_percentage :=
      if dictHas info "batteryPercentage" then dictGet info "batteryPercentage"
      else dev.battery_percentage
  , current_phone := pyOr (pyOr (dictGet info "currentPhone") (dictGet info "phone")) dev.current_phone
  , current_identifier := pyOr (dictGet info "currentIdentifier") dev.current_identifier
  , time := pyOr (dictGet info "time") dev.time
  , bankcard := dictGetD info "bankcard" dev.bankcard
  , system_info :=
      if truthy (dictGet info "systemInfo") then mergeSystemInfo dev.system_info (dictGet info "systemInfo")
      else dev.system_info
  , sync_status := "syncing"
  , sync_error_message := none }

/-- The `transaction.atomic()` device block of `hard_sync_device_from_firebase`
(lines 335-403): mark an existing device `syncing`, then `get_or_create` with
`defaults`, then either update (when `update_existing`) or leave as is. -/
def syncDevicePhase (u : Bool) (d : String) (info : List (String × FVal))
    (res : SyncResult) (db : DB) : SyncResult × DB :=
  let db1 := updateDevice db d
    (fun dev => { dev with sync_status := "syncing", sync_error_message := none })
  let isAct := normalizeIsActive (dictGetD info "isActive" (.vbool false))
  match findDevice db1.devices d with
  | none =>
    ({ res with device_created := true },
     { db1 with devices := db1.devices ++ [deviceDefaults d info isAct] })
  | some _ =>
    if u then
      ({ res with device_updated := true }, updateDevice db1 d (deviceUpdateRow info isAct))
    else
      (res, db1)

/-- The device-row transformation of the final status block (lines 634-670):
errors force `sync_failed` with `'; '.join(result['errors'][:500])` — the
source slices the errors LIST to 500 entries, it does not truncate the joined
string — zero errors give `synced` and refresh the sync timestamps; per-kind
last-synced timestamps and count metadata always refreshed. -/
def finalizeDeviceRow (res : SyncResult) (now : Nat) (dev : DeviceRow) : DeviceRow :=
  let dev1 :=
    if res.errors.isEmpty then
      { dev with sync_status := "synced", sync_error_message := none
               , last_sync_at := some now, last_hard_sync_at := some now }
    else
      { dev with sync_status := "sync_failed"
               , sync_error_message := some (String.intercalate "; " (res.errors.take 500)) }
  let dev2 := { dev1 with
    messages_last_synced_at :=
      if res.messages_fetched > 0 then some now else dev1.messages_last_synced_at
  , notifications_last_synced_at :=
      if res.notifications_fetched > 0 then some now else dev1.notifications_last_synced_at
  , contacts_last_synced_at :=
      if res.contacts_fetched > 0 then some now else dev1.contacts_last_synced_at }
  { dev2 with sync_metadata :=
      [("last_sync_messages_count", res.messages_fetched)
      ,("last_sync_notifications_count", res.notifications_fetched)
      ,("last_sync_contacts_count", res.contacts_fetched)
      ,("last_sync_messages_created", res.messages_created)
      ,("last_sync_messages_updated", res.messages_updated)
      ,("last_sync_notifications_created", res.notifications_created)
      ,("last_sync_notifications_updated", res.notifications_updated)
      ,("last_sync_contacts_created", res.contacts_created)
      ,("last_sync_contacts_updated", res.contacts_updated)] }

/-- The final status-update block (lines 634-673): re-fetch the device and
persist status, timestamps and metadata; a failed re-fetch is caught and
appended to the errors list. -/
def finalizeSync (d : String) (now : Nat) (res : SyncResult) (db : DB) : SyncResult × DB :=
  match findDevice db.devices d with
  | none =>
    ({ res with errors := res.errors ++
        ["Error updating device sync status: Device matching query does not exist."] }, db)
  | some _ => (res, updateDevice db d (finalizeDeviceRow res now))

/-- The message fetch-and-reconcile phase (lines 405-459): record the fetched
count, then fold the loop body over the fetched entries. Called with the SDK
known to be available, so the fetcher's `ImportError` branch cannot fire. -/
def msgsPhase (env : FirebaseEnv) (u : Bool) (d : String) (s : SyncResult × DB) :
    SyncResult × DB :=
  let msgs := fetchData env (messagePathsFor d)
  msgs.foldl (processMessage u d) ({ s.1 with messages_fetched := msgs.length }, s.2)

/-- The notification fetch-and-reconcile phase (lines 461-511). -/
def notifsPhase (env : FirebaseEnv) (u : Bool) (d : String) (s : SyncResult × DB) :
    SyncResult × DB :=
  let notifs := fetchData env (notificationPathsFor d)
  notifs.foldl (processNotification u d)
    ({ s.1 with notifications_fetched := notifs.length }, s.2)

/-- The contact fetch-and-reconcile phase (lines 513-632). -/
def contactsPhase (env : FirebaseEnv) (u : Bool) (d : String) (s : SyncResult × DB) :
    SyncResult × DB :=
  let contacts := fetchData env (contactPathsFor d)
  contacts.foldl (processContact u d)
    ({ s.1 with contacts_fetched := contacts.length }, s.2)

/-- Device phase followed by the three per-kind fetch-and-reconcile phases,
starting from the fresh result dictionary of lines 306-323. -/
def hardSyncCore (env : FirebaseEnv) (db : DB) (d : String) (u : Bool)
    (info : List (String × FVal)) : SyncResult × DB :=
  contactsPhase env u d (notifsPhase env u d (msgsPhase env u d
    (syncDevicePhase u d info { device_id := d } db)))

/-- The body of `hard_sync_device_from_firebase` once device info was found:
device phase, the three per-kind fetch-and-reconcile phases, then the final
status block. -/
def hardSyncBody (env : FirebaseEnv) (db : DB) (d : String) (u : Bool) (now : Nat)
    (info : List (String × FVal)) : SyncResult × DB :=
  finalizeSync d now (hardSyncCore env db d u info).1 (hardSyncCore env db d u info).2

/-- `hard_sync_device_from_firebase` (utils.py lines 291-688). The outer
`except` only fires, on representable inputs, for the `ImportError` of an
unavailable SDK ("catastrophic" path, lines 675-686: status forced to
`sync_failed` with `str(e)[:500]` when the device row exists). When Firebase
has no device data the function returns early (lines 329-332) WITHOUT
touching the device row. -/
def hard_sync_device_from_firebase (env : FirebaseEnv) (db : DB) (device_id : String)
    (u : Bool) (now : Nat) : SyncResult × DB :=
  let res0 : SyncResult := { device_id := device_id }
  if !env.available then
    let e := "Firebase Admin SDK not available"
    ({ res0 with errors := ["Hard sync failed: " ++ e] },
     updateDevice db device_id
       (fun dev => { dev with sync_status := "sync_failed"
                            , sync_error_message := some ((e.data.take 500).asString) }))
  else
    let info := fetchData env (deviceInfoPathsFor device_id)
    if info.isEmpty then
      ({ res0 with errors := ["No device data found in Firebase for device " ++ device_id] }, db)
    else
      hardSyncBody env db device_id u now info

/-- The result dictionary of `sync_messages_from_firebase` (lines 703-710). -/
structure SyncMsgsResult where
  device_id : String
  messages_fetched : Nat := 0
  messages_created : Nat := 0
  messages_skipped : Nat := 0
  errors : List String := []
  firebase_cleaned : Bool := false

/-- Loop body of the message loop of `sync_messages_from_firebase`
(lines 733-776): the duplicate check happens BEFORE the message-type
normalization, and existing rows are skipped, never updated. -/
def processMessageSM (d : String) (acc : SyncMsgsResult × DB)
    (entry : String × FVal) : SyncMsgsResult × DB :=
  let res := acc.1
  let db := acc.2
  match parseIntStr entry.1 with
  | none => ({ res with errors := res.errors ++ [msgErrString entry.1] }, db)
  | some ts =>
    match parseMsgData entry.2 with
    | none => ({ res with messages_skipped := res.messages_skipped + 1 }, db)
    | some (t0, p, b, r) =>
      match findMessage db.messages d ts with
      | some _ => ({ res with messages_skipped := res.messages_skipped + 1 }, db)
      | none =>
        let t := normMsgType t0
        ({ res with messages_created := res.messages_created + 1 },
         { db with messages := db.messages ++ [⟨d, ts, t, p, b, r⟩] })

/-- `sync_messages_from_firebase` (utils.py lines 691-793). The closing
`clean_firebase_messages` call prunes the REMOTE store (an external effect
outside `DB`); it can only raise out of a failed `initialize_firebase()`, and
in that case the message fetch already returned empty and the function
returned before reaching it, so `firebase_cleaned` is set unconditionally
here. -/
def sync_messages_from_firebase (env : FirebaseEnv) (db : DB) (device_id : String)
    (keep_latest : Nat) : SyncMsgsResult × DB :=
  let res0 : SyncMsgsResult := { device_id := device_id }
  match findDevice db.devices device_id with
  | none =>
    ({ res0 with errors := ["Device " ++ device_id ++ " not found in Django database"] }, db)
  | some _ =>
    if !env.available then
      ({ res0 with errors := ["Sync failed: Firebase Admin SDK not available"] }, db)
    else
      let msgs := fetchData env (messagePathsFor device_id)
      let res1 := { res0 with messages_fetched := msgs.length }
      if msgs.isEmpty then (res1, db)
      else
        let s := msgs.foldl (processMessageSM device_id) (res1, db)
        let _ := keep_latest
        ({ s.1 with firebase_cleaned := true }, s.2)

/-- The result dictionary of `hard_sync_all_devices_from_firebase`
(lines 917-929). -/
structure AllSyncResult where
  total_devices_processed : Nat := 0
  devices_synced : Nat := 0
  devices_failed : Nat := 0
  total_messages_created : Nat := 0
  total_messages_updated : Nat := 0
  total_notifications_created : Nat := 0
  total_notifications_updated : Nat := 0
  total_contacts_created : Nat := 0
  total_contacts_updated : Nat := 0
  device_results : List SyncResult := []
  errors : List String := []

/-- Keys of the top-level `device` collection, as used by discovery
(lines 944-947): counted only when the value is a truthy dict. -/
def deviceCollectionKeys (env : FirebaseEnv) : List String :=
  match env.store "device" with
  | .data kvs => kvs.map (fun kv => kv.1)
  | _ => []

/-- Keys of the legacy `fastpay` collection whose value is a dict containing
a `messages`, `Notification` or `Contact` subtree (lines 950-956). -/
def fastpayFilteredKeys (env : FirebaseEnv) : List String :=
  match env.store "fastpay" with
  | .data kvs =>
    (kvs.filter (fun kv =>
      match kv.2 with
      | .vdict inner => dictHas inner "messages" || dictHas inner "Notification" || dictHas inner "Contact"
      | _ => false)).map (fun kv => kv.1)
  | _ => []

/-- The Firebase side of device discovery (the `try` block, lines 937-965):
`none` models the block raising (SDK missing, init failure, or either
top-level read raising), which falls back to the local ids. -/
def firebaseDeviceIds (env : FirebaseEnv) : Option (List String) :=
  if !env.available || !env.initOk then none
  else if (env.store "device").isRaise || (env.store "fastpay").isRaise then none
  else some (deviceCollectionKeys env ++ fastpayFilteredKeys env)

/-- The device-ID universe iterated by `hard_sync_all_devices_from_firebase`.
Python iterates a `set`, whose order is unspecified; the model fixes a
deduplicated list (locally known ids first, then newly discovered ones). -/
def syncAllDeviceIds (env : FirebaseEnv) (db : DB) : List String :=
  let djangoIds := (db.devices.map (fun dev => dev.device_id)).dedup
  match firebaseDeviceIds env with
  | none => djangoIds
  | some fids =>
    if fids.isEmpty then djangoIds else (djangoIds ++ fids).dedup

/-- Fleet-loop body (lines 969-989): aggregate one device's result. The
per-device `except` is unreachable because `hard_sync_device_from_firebase`
returns its errors rather than raising. -/
def fleetStep (env : FirebaseEnv) (u : Bool) (now : Nat)
    (acc : AllSyncResult × DB) (d : String) : AllSyncResult × DB :=
  let s := hard_sync_device_from_firebase env acc.2 d u now
  let r := s.1
  let a := acc.1
  ({ a with
      device_results := a.device_results ++ [r]
    , devices_failed := a.devices_failed + (if r.errors.isEmpty then 0 else 1)
    , devices_synced := a.devices_synced + (if r.errors.isEmpty then 1 else 0)
    , total_messages_created := a.total_messages_created + r.messages_created
    , total_messages_updated := a.total_messages_updated + r.messages_updated
    , total_notifications_created := a.total_notifications_created + r.notifications_created
    , total_notifications_updated := a.total_notifications_updated + r.notifications_updated
    , total_contacts_created := a.total_contacts_created + r.contacts_created
    , total_contacts_updated := a.total_contacts_updated + r.contacts_updated }, s.2)

/-- `hard_sync_all_devices_from_firebase` (utils.py lines 907-995). -/
def hard_sync_all_devices_from_firebase (env : FirebaseEnv) (db : DB) (u : Bool)
    (now : Nat) : AllSyncResult × DB :=
  let ids := syncAllDeviceIds env db
  let a0 : AllSyncResult := { total_devices_processed := ids.length }
  ids.foldl (fleetStep env u now) (a0, db)

/-! ### Generic lookup lemmas -/

/-- `find?` through a key-preserving map. -/
theorem find?_map_pres {α : Type} (p : α → Bool) (g : α → α)
    (hg : ∀ x, p (g x) = p x) (l : List α) :
    (l.map g).find? p = (l.find? p).map g := by
  induction l with
  | nil => rfl
  | cons x xs ih =>
    by_cases hx : p x = true
    · rw [List.map_cons, List.find?_cons_of_pos _ ((hg x).trans hx),
        List.find?_cons_of_pos _ hx, Option.map_some']
    · rw [List.map_cons, List.find?_cons_of_neg _ (by rw [hg]; exact hx),
        List.find?_cons_of_neg _ hx, ih]

theorem findDevice_updDevices (l : List DeviceRow) (d : String) (f : DeviceRow → DeviceRow)
    (hf : ∀ x, (f x).device_id = x.device_id) :
    findDevice (updDevices l d f) d =
      (findDevice l d).map (fun x => if x.device_id == d then f x else x) := by
  unfold findDevice updDevices
  exact find?_map_pres _ _ (fun x => by by_cases h : x.device_id == d <;> simp [h, hf]) l

/-- Membership-style view of `findMessage` over an append. -/
theorem hasMsg_append (l1 l2 : List MessageRow) (d : String) (ts : Int) :
    (findMessage (l1 ++ l2) d ts).isSome =
      ((findMessage l1 d ts).isSome || (findMessage l2 d ts).isSome) := by
  unfold findMessage
  rw [List.find?_append]
  cases l1.find? (fun m => m.device_id == d && m.timestamp == ts) <;> simp [Option.or]

theorem hasNotif_append (l1 l2 : List NotificationRow) (d : String) (ts : Int) :
    (findNotification (l1 ++ l2) d ts).isSome =
      ((findNotification l1 d ts).isSome || (findNotification l2 d ts).isSome) := by
  unfold findNotification
  rw [List.find?_append]
  cases l1.find? (fun n => n.device_id == d && n.timestamp == ts) <;> simp [Option.or]

theorem hasContact_append (l1 l2 : List ContactRow) (d : String) (ph : String) :
    (findContact (l1 ++ l2) d ph).isSome =
      ((findContact l1 d ph).isSome || (findContact l2 d ph).isSome) := by
  unfold findContact
  rw [List.find?_append]
  cases l1.find? (fun c => c.device_id == d && c.phone_number == ph) <;> simp [Option.or]

theorem findMessage_overwriteMessage (l : List MessageRow) (d : String) (ts : Int)
    (t p b r : FVal) (d' : String) (ts' : Int) :
    findMessage (overwriteMessage l d ts t p b r) d' ts' =
      (findMessage l d' ts').map (fun m =>
        if m.device_id == d && m.timestamp == ts then
          { m with message_type := t, phone := p, body := b, read := r }
        else m) := by
  unfold findMessage overwriteMessage
  exact find?_map_pres _ _ (fun x => by by_cases h : x.device_id == d && x.timestamp == ts <;> simp [h]) l

theorem findNotification_overwriteNotification (l : List NotificationRow) (d : String)
    (ts : Int) (pkg ti tx : FVal) (d' : String) (ts' : Int) :
    findNotification (overwriteNotification l d ts pkg ti tx) d' ts' =
      (findNotification l d' ts').map (fun n =>
        if n.device_id == d && n.timestamp == ts then
          { n with package_name := pkg, title := ti, text := tx }
        else n) := by
  unfold findNotification overwriteNotification
  exact find?_map_pres _ _ (fun x => by by_cases h : x.device_id == d && x.timestamp == ts <;> simp [h]) l

theorem findContact_overwriteContact (l : List ContactRow) (d : String) (ph : String)
    (f : ContactFields) (d' : String) (ph' : String) :
    findContact (overwriteContact l d ph f) d' ph' =
      (findContact l d' ph').map (fun c =>
        if c.device_id == d && c.phone_number == ph then { c with fields := f } else c) := by
  unfold findContact overwriteContact
  exact find?_map_pres _ _ (fun x => by by_cases h : x.device_id == d && x.phone_number == ph <;> simp [h]) l


/-! ### Step-shape (frame) lemmas: each loop body only touches its own
kind's counters, the shared errors list, and its own kind's table. -/

theorem processMessage_shape (u : Bool) (d : String) (res : SyncResult) (db : DB)
    (e : String × FVal) :
    ∃ mc mu ms err ml,
      processMessage u d (res, db) e =
        ({ res with messages_created := mc, messages_updated := mu,
                    messages_skipped := ms, errors := err },
         { db with messages := ml }) := by
  unfold processMessage
  try dsimp only
  repeat' (first | exact ⟨_, _, _, _, _, rfl⟩ | split)

theorem processNotification_shape (u : Bool) (d : String) (res : SyncResult) (db : DB)
    (e : String × FVal) :
    ∃ nc nu ns err nl,
      processNotification u d (res, db) e =
        ({ res with notifications_created := nc, notifications_updated := nu,
                    notifications_skipped := ns, errors := err },
         { db with notifications := nl }) := by
  unfold processNotification
  try dsimp only
  repeat' (first | exact ⟨_, _, _, _, _, rfl⟩ | split)

theorem processContact_shape (u : Bool) (d : String) (res : SyncResult) (db : DB)
    (e : String × FVal) :
    ∃ cc cu cs cl,
      processContact u d (res, db) e =
        ({ res with contacts_created := cc, contacts_updated := cu,
                    contacts_skipped := cs },
         { db with contacts := cl }) := by
  unfold processContact
  try dsimp only
  repeat' (first | exact ⟨_, _, _, _, rfl⟩ | split)

theorem processMessageSM_shape (d : String) (res : SyncMsgsResult) (db : DB)
    (e : String × FVal) :
    ∃ mc ms err ml,
      processMessageSM d (res, db) e =
        ({ res with messages_created := mc, messages_skipped := ms, errors := err },
         { db with messages := ml }) := by
  unfold processMessageSM
  try dsimp only
  repeat' (first | exact ⟨_, _, _, _, rfl⟩ | split)

theorem foldl_processMessage_shape (u : Bool) (d : String) (batch : List (String × FVal)) :
    ∀ res db, ∃ mc mu ms err ml,
      batch.foldl (processMessage u d) (res, db) =
        ({ res with messages_created := mc, messages_updated := mu,
                    messages_skipped := ms, errors := err },
         { db with messages := ml }) := by
  induction batch with
  | nil => intro res db; exact ⟨_, _, _, _, _, rfl⟩
  | cons e es ih =>
    intro res db
    rw [List.foldl_cons]
    obtain ⟨mc, mu, ms, err, ml, h⟩ := processMessage_shape u d res db e
    rw [h]
    obtain ⟨mc2, mu2, ms2, err2, ml2, h2⟩ := ih _ _
    rw [h2]
    exact ⟨_, _, _, _, _, rfl⟩

theorem foldl_processNotification_shape (u : Bool) (d : String)
    (batch : List (String × FVal)) :
    ∀ res db, ∃ nc nu ns err nl,
      batch.foldl (processNotification u d) (res, db) =
        ({ res with notifications_created := nc, notifications_updated := nu,
                    notifications_skipped := ns, errors := err },
         { db with notifications := nl }) := by
  induction batch with
  | nil => intro res db; exact ⟨_, _, _, _, _, rfl⟩
  | cons e es ih =>
    intro res db
    rw [List.foldl_cons]
    obtain ⟨nc, nu, ns, err, nl, h⟩ := processNotification_shape u d res db e
    rw [h]
    obtain ⟨nc2, nu2, ns2, err2, nl2, h2⟩ := ih _ _
    rw [h2]
    exact ⟨_, _, _, _, _, rfl⟩

theorem foldl_processContact_shape (u : Bool) (d : String)
    (batch : List (String × FVal)) :
    ∀ res db, ∃ cc cu cs cl,
      batch.foldl (processContact u d) (res, db) =
        ({ res with contacts_created := cc, contacts_updated := cu,
                    contacts_skipped := cs },
         { db with contacts := cl }) := by
  induction batch with
  | nil => intro res db; exact ⟨_, _, _, _, rfl⟩
  | cons e es ih =>
    intro res db
    rw [List.foldl_cons]
    obtain ⟨cc, cu, cs, cl, h⟩ := processContact_shape u d res db e
    rw [h]
    obtain ⟨cc2, cu2, cs2, cl2, h2⟩ := ih _ _
    rw [h2]
    exact ⟨_, _, _, _, rfl⟩

theorem msgsPhase_shape (env : FirebaseEnv) (u : Bool) (d : String) (s : SyncResult × DB) :
    ∃ mf mc mu ms err ml,
      msgsPhase env u d s =
        ({ s.1 with messages_fetched := mf, messages_created := mc,
                    messages_updated := mu, messages_skipped := ms, errors := err },
         { s.2 with messages := ml }) := by
  unfold msgsPhase
  obtain ⟨mc, mu, ms, err, ml, h⟩ :=
    foldl_processMessage_shape u d (fetchData env (messagePathsFor d))
      { s.1 with messages_fetched := (fetchData env (messagePathsFor d)).length } s.2
  rw [h]
  exact ⟨_, _, _, _, _, _, rfl⟩

theorem notifsPhase_shape (env : FirebaseEnv) (u : Bool) (d : String) (s : SyncResult × DB) :
    ∃ nf nc nu ns err nl,
      notifsPhase env u d s =
        ({ s.1 with notifications_fetched := nf, notifications_created := nc,
                    notifications_updated := nu, notifications_skipped := ns, errors := err },
         { s.2 with notifications := nl }) := by
  unfold notifsPhase
  obtain ⟨nc, nu, ns, err, nl, h⟩ :=
    foldl_processNotification_shape u d (fetchData env (notificationPathsFor d))
      { s.1 with notifications_fetched := (fetchData env (notificationPathsFor d)).length } s.2
  rw [h]
  exact ⟨_, _, _, _, _, _, rfl⟩

theorem contactsPhase_shape (env : FirebaseEnv) (u : Bool) (d : String) (s : SyncResult × DB) :
    ∃ cf cc cu cs cl,
      contactsPhase env u d s =
        ({ s.1 with contacts_fetched := cf, contacts_created := cc,
                    contacts_updated := cu, contacts_skipped := cs },
         { s.2 with contacts := cl }) := by
  unfold contactsPhase
  obtain ⟨cc, cu, cs, cl, h⟩ :=
    foldl_processContact_shape u d (fetchData env (contactPathsFor d))
      { s.1 with contacts_fetched := (fetchData env (contactPathsFor d)).length } s.2
  rw [h]
  exact ⟨_, _, _, _, _, rfl⟩

theorem syncDevicePhase_shape (u : Bool) (d : String) (info : List (String × FVal))
    (res : SyncResult) (db : DB) :
    ∃ bc bu dl,
      syncDevicePhase u d info res db =
        ({ res with device_created := bc, device_updated := bu },
         { db with devices := dl }) := by
  unfold syncDevicePhase updateDevice
  try dsimp only
  repeat' (first | exact ⟨_, _, _, rfl⟩ | split)

theorem finalizeSync_shape (d : String) (now : Nat) (res : SyncResult) (db : DB) :
    ∃ err dl,
      finalizeSync d now res db = ({ res with errors := err }, { db with devices := dl }) := by
  unfold finalizeSync updateDevice
  try dsimp only
  repeat' (first | exact ⟨_, _, rfl⟩ | split)

theorem finalizeSync_found (d : String) (now : Nat) (res : SyncResult) (db : DB)
    (dev : DeviceRow) (h : findDevice db.devices d = some dev) :
    finalizeSync d now res db = (res, updateDevice db d (finalizeDeviceRow res now)) := by
  unfold finalizeSync
  rw [h]

/-! ### Message reconciliation semantics -/

/-- An entry whose timestamp key parses: exactly these entries are counted
(created, updated or skipped); the rest land in `errors`. -/
def msgKeyed (e : String × FVal) : Bool := (parseIntStr e.1).isSome

/-- A well-formed message entry: parsable key and recognized shape. -/
def msgWF (e : String × FVal) : Bool :=
  (parseIntStr e.1).isSome && (parseMsgData e.2).isSome

/-- The natural key of entry `e` has a row in `l` for device `d`. -/
def msgSynced (l : List MessageRow) (d : String) (e : String × FVal) : Prop :=
  ∀ ts, parseIntStr e.1 = some ts → (findMessage l d ts).isSome = true

theorem processMessage_error (u : Bool) (d : String) (acc : SyncResult × DB)
    (e : String × FVal) (hbad : parseIntStr e.1 = none) :
    processMessage u d acc e =
      ({ acc.1 with errors := acc.1.errors ++ [msgErrString e.1] }, acc.2) := by
  unfold processMessage
  simp only [hbad]

theorem processMessage_mono (u : Bool) (d : String) (acc : SyncResult × DB)
    (e : String × FVal) (d' : String) (ts' : Int)
    (h : (findMessage acc.2.messages d' ts').isSome = true) :
    (findMessage (processMessage u d acc e).2.messages d' ts').isSome = true := by
  unfold processMessage
  try dsimp only
  split
  · exact h
  · split
    · exact h
    · split
      · try dsimp only
        rw [hasMsg_append, h, Bool.true_or]
      · split
        · try dsimp only
          rw [findMessage_overwriteMessage]
          cases hf : findMessage acc.2.messages d' ts'
          · rw [hf] at h; exact absurd h (by simp)
          · simp
        · exact h

theorem foldl_processMessage_mono (u : Bool) (d : String) (batch : List (String × FVal)) :
    ∀ (acc : SyncResult × DB) (d' : String) (ts' : Int),
      (findMessage acc.2.messages d' ts').isSome = true →
      (findMessage ((batch.foldl (processMessage u d) acc).2).messages d' ts').isSome = true := by
  induction batch with
  | nil => intro acc d' ts' h; exact h
  | cons e es ih =>
    intro acc d' ts' h
    rw [List.foldl_cons]
    exact ih _ _ _ (processMessage_mono u d acc e d' ts' h)

theorem processMessage_covers (u : Bool) (d : String) (acc : SyncResult × DB)
    (e : String × FVal) (hwf : msgWF e = true) :
    msgSynced (processMessage u d acc e).2.messages d e := by
  intro ts hts
  have hq : (parseMsgData e.2).isSome = true := by
    unfold msgWF at hwf
    exact (Bool.and_eq_true _ _ |>.mp hwf).2
  rw [Option.isSome_iff_exists] at hq
  obtain ⟨⟨t0, p, b, r⟩, hq⟩ := hq
  unfold processMessage
  simp only [hts, hq]
  try dsimp only
  cases hf : findMessage acc.2.messages d ts
  · simp only [hf]
    try dsimp only
    rw [hasMsg_append]
    have hrow : (findMessage [⟨d, ts, normMsgType t0, p, b, r⟩] d ts).isSome = true := by
      unfold findMessage
      simp [List.find?]
    rw [hrow, Bool.or_true]
  · simp only [hf]
    split
    · try dsimp only
      rw [findMessage_overwriteMessage, hf]
      simp
    · try dsimp only
      rw [hf]
      simp

theorem foldl_processMessage_coverage (u : Bool) (d : String)
    (batch : List (String × FVal)) :
    ∀ (acc : SyncResult × DB) (e : String × FVal), e ∈ batch → msgWF e = true →
      msgSynced ((batch.foldl (processMessage u d) acc).2).messages d e := by
  induction batch with
  | nil => intro acc e he; exact absurd he (List.not_mem_nil e)
  | cons f es ih =>
    intro acc e he hwf
    rw [List.foldl_cons]
    rcases List.mem_cons.mp he with rfl | he'
    · intro ts hts
      exact foldl_processMessage_mono u d es _ d ts (processMessage_covers u d acc e hwf ts hts)
    · exact ih _ e he' hwf

theorem processMessage_count_false (d : String) (acc : SyncResult × DB) (e : String × FVal) :
    (processMessage false d acc e).1.messages_created +
      (processMessage false d acc e).1.messages_skipped =
      acc.1.messages_created + acc.1.messages_skipped + (if msgKeyed e then 1 else 0) ∧
    (processMessage false d acc e).1.messages_updated = acc.1.messages_updated := by
  unfold processMessage msgKeyed
  cases hp : parseIntStr e.1 with
  | none => simp [hp]
  | some ts =>
    cases hq : parseMsgData e.2 with
    | none => simp [hp, hq] <;> omega
    | some q =>
      obtain ⟨t0, p, b, r⟩ := q
      cases hf : findMessage acc.2.messages d ts with
      | none => simp [hp, hq, hf] <;> omega
      | some m => simp [hp, hq, hf] <;> omega

theorem foldl_processMessage_count_false (d : String) (batch : List (String × FVal)) :
    ∀ (acc : SyncResult × DB),
      (batch.foldl (processMessage false d) acc).1.messages_created +
        (batch.foldl (processMessage false d) acc).1.messages_skipped =
        acc.1.messages_created + acc.1.messages_skipped + batch.countP msgKeyed ∧
      (batch.foldl (processMessage false d) acc).1.messages_updated =
        acc.1.messages_updated := by
  induction batch with
  | nil => intro acc; simp
  | cons e es ih =>
    intro acc
    rw [List.foldl_cons]
    obtain ⟨h1, h2⟩ := processMessage_count_false d acc e
    obtain ⟨h3, h4⟩ := ih (processMessage false d acc e)
    refine ⟨?_, by rw [h4, h2]⟩
    rw [h3, List.countP_cons]
    by_cases hk : msgKeyed e = true <;> simp [hk] at h1 ⊢ <;> omega

theorem processMessage_skip_existing (d : String) (acc : SyncResult × DB)
    (e : String × FVal)
    (hcov : msgWF e = true → msgSynced acc.2.messages d e) :
    processMessage false d acc e =
      (if msgKeyed e then { acc.1 with messages_skipped := acc.1.messages_skipped + 1 }
       else { acc.1 with errors := acc.1.errors ++ [msgErrString e.1] }, acc.2) := by
  unfold processMessage msgKeyed
  cases hp : parseIntStr e.1 with
  | none => simp [hp]
  | some ts =>
    cases hq : parseMsgData e.2 with
    | none => simp [hp, hq]
    | some q =>
      obtain ⟨t0, p, b, r⟩ := q
      have hs : (findMessage acc.2.messages d ts).isSome = true := by
        refine hcov ?_ ts hp
        unfold msgWF
        rw [hp, hq]
        rfl
      rw [Option.isSome_iff_exists] at hs
      obtain ⟨m, hm⟩ := hs
      simp [hp, hq, hm]

theorem foldl_processMessage_skip_existing (d : String) (batch : List (String × FVal)) :
    ∀ (acc : SyncResult × DB),
      (∀ e ∈ batch, msgWF e = true → msgSynced acc.2.messages d e) →
      (batch.foldl (processMessage false d) acc).1.messages_skipped =
          acc.1.messages_skipped + batch.countP msgKeyed ∧
      (batch.foldl (processMessage false d) acc).1.messages_created =
          acc.1.messages_created ∧
      (batch.foldl (processMessage false d) acc).1.messages_updated =
          acc.1.messages_updated ∧
      (batch.foldl (processMessage false d) acc).2 = acc.2 := by
  induction batch with
  | nil => intro acc _; simp
  | cons e es ih =>
    intro acc hcov
    rw [List.foldl_cons]
    rw [processMessage_skip_existing d acc e (hcov e (List.mem_cons_self e es))]
    by_cases hk : msgKeyed e = true
    · rw [if_pos hk]
      obtain ⟨h1, h2, h3, h4⟩ := ih ({ acc.1 with messages_skipped := acc.1.messages_skipped + 1 }, acc.2)
        (fun f hf => hcov f (List.mem_cons_of_mem e hf))
      refine ⟨?_, h2, h3, h4⟩
      rw [h1, List.countP_cons]
      simp [hk]
      omega
    · rw [if_neg hk]
      obtain ⟨h1, h2, h3, h4⟩ := ih ({ acc.1 with errors := acc.1.errors ++ [msgErrString e.1] }, acc.2)
        (fun f hf => hcov f (List.mem_cons_of_mem e hf))
      refine ⟨?_, h2, h3, h4⟩
      rw [h1, List.countP_cons]
      simp [hk]

theorem foldl_processMessage_fresh (u : Bool) (d : String) (batch : List (String × FVal)) :
    ∀ (acc : SyncResult × DB),
      (∀ e ∈ batch, msgWF e = true) →
      batch.Pairwise (fun a b => parseIntStr a.1 ≠ parseIntStr b.1) →
      (∀ e ∈ batch, ∀ ts, parseIntStr e.1 = some ts →
        (findMessage acc.2.messages d ts).isSome = false) →
      (batch.foldl (processMessage u d) acc).1.messages_created =
        acc.1.messages_created + batch.length ∧
      (batch.foldl (processMessage u d) acc).1.messages_updated = acc.1.messages_updated ∧
      (batch.foldl (processMessage u d) acc).1.errors = acc.1.errors ∧
      ∃ rows, (batch.foldl (processMessage u d) acc).2.messages = acc.2.messages ++ rows ∧
        ∀ m ∈ rows, m.device_id = d ∧ ∃ e ∈ batch, parseIntStr e.1 = some m.timestamp := by
  induction batch with
  | nil =>
    intro acc _ _ _
    refine ⟨by simp, by simp, by simp, [], by simp, by simp⟩
  | cons e es ih =>
    intro acc hwf hpw hfresh
    rw [List.foldl_cons]
    have hwfe := hwf e (List.mem_cons_self e es)
    have hpex : ∃ ts, parseIntStr e.1 = some ts := by
      have h := (Bool.and_eq_true _ _ |>.mp hwfe).1
      rwa [Option.isSome_iff_exists] at h
    obtain ⟨ts, hp⟩ := hpex
    have hqex : ∃ q, parseMsgData e.2 = some q := by
      have h := (Bool.and_eq_true _ _ |>.mp hwfe).2
      rwa [Option.isSome_iff_exists] at h
    obtain ⟨⟨t0, p, b, r⟩, hq⟩ := hqex
    have hf : findMessage acc.2.messages d ts = none := by
      have h := hfresh e (List.mem_cons_self e es) ts hp
      cases hfm : findMessage acc.2.messages d ts
      · rfl
      · rw [hfm] at h; simp at h
    have hstep : processMessage u d acc e =
        ({ acc.1 with messages_created := acc.1.messages_created + 1 },
         { acc.2 with messages := acc.2.messages ++ [⟨d, ts, normMsgType t0, p, b, r⟩] }) := by
      unfold processMessage
      simp [hp, hq, hf]
    rw [hstep]
    have hfre2 : ∀ f ∈ es, ∀ ts', parseIntStr f.1 = some ts' →
        (findMessage ({ acc.2 with
          messages := acc.2.messages ++ [⟨d, ts, normMsgType t0, p, b, r⟩] } : DB).messages d ts').isSome = false := by
      intro f hfm ts' hts'
      dsimp only
      rw [hasMsg_append]
      have hdb : (findMessage acc.2.messages d ts').isSome = false :=
        hfresh f (List.mem_cons_of_mem e hfm) ts' hts'
      have hne : ts ≠ ts' := by
        have hR := (List.pairwise_cons.mp hpw).1 f hfm
        rw [hp, hts'] at hR
        intro hcontra
        exact hR (by rw [hcontra])
      have hrow : (findMessage [⟨d, ts, normMsgType t0, p, b, r⟩] d ts').isSome = false := by
        unfold findMessage
        have hne' : (ts == ts') = false := beq_eq_false_iff_ne.mpr hne
        simp [List.find?, hne']
      rw [hdb, hrow]
      rfl
    obtain ⟨h1, h2, h3, rows, hrw, hrmem⟩ := ih
      ({ acc.1 with messages_created := acc.1.messages_created + 1 },
       { acc.2 with messages := acc.2.messages ++ [⟨d, ts, normMsgType t0, p, b, r⟩] })
      (fun f hfm => hwf f (List.mem_cons_of_mem e hfm))
      (List.Pairwise.of_cons hpw) hfre2
    refine ⟨?_, by rw [h2], by rw [h3], ⟨d, ts, normMsgType t0, p, b, r⟩ :: rows, ?_, ?_⟩
    · rw [h1]
      simp
      omega
    · rw [hrw]
      simp
    · intro m hm
      rcases List.mem_cons.mp hm with rfl | hm'
      · exact ⟨rfl, e, List.mem_cons_self e es, hp⟩
      · obtain ⟨hd, f, hf, hfts⟩ := hrmem m hm'
        exact ⟨hd, f, List.mem_cons_of_mem e hf, hfts⟩

/-! ### Notification reconciliation semantics -/

/-- A notification entry that is counted (created, updated or skipped):
parsable key, and either unrecognized shape (skipped) or a truthy package
name; entries with a falsy package are passed over without any count. -/
def notifCounted (e : String × FVal) : Bool :=
  (parseIntStr e.1).isSome &&
    (match parseNotifData e.2 with
     | none => true
     | some t => truthy t.1)

/-- A well-formed notification entry: parsable key, recognized shape and a
truthy package name. -/
def notifWF (e : String × FVal) : Bool :=
  (parseIntStr e.1).isSome &&
    (match parseNotifData e.2 with
     | none => false
     | some t => truthy t.1)

/-- The natural key of entry `e` has a notification row in `l`. -/
def notifSynced (l : List NotificationRow) (d : String) (e : String × FVal) : Prop :=
  ∀ ts, parseIntStr e.1 = some ts → (findNotification l d ts).isSome = true

theorem processNotification_mono (u : Bool) (d : String) (acc : SyncResult × DB)
    (e : String × FVal) (d' : String) (ts' : Int)
    (h : (findNotification acc.2.notifications d' ts').isSome = true) :
    (findNotification (processNotification u d acc e).2.notifications d' ts').isSome = true := by
  unfold processNotification
  cases hp : parseIntStr e.1 with
  | none => simp only [hp]; exact h
  | some ts =>
    simp only [hp]
    cases hq : parseNotifData e.2 with
    | none => simp only [hq]; exact h
    | some q =>
      obtain ⟨pkg, ti, tx⟩ := q
      simp only [hq]
      by_cases hpk : truthy pkg = true
      · simp only [hpk, Bool.not_true, Bool.false_eq_true, if_false]
        cases hf : findNotification acc.2.notifications d ts with
        | none =>
          simp only [hf]
          rw [hasNotif_append, h, Bool.true_or]
        | some n =>
          simp only [hf]
          split
          · rw [findNotification_overwriteNotification]
            cases hfn : findNotification acc.2.notifications d' ts'
            · rw [hfn] at h; exact absurd h (by simp)
            · simp
          · exact h
      · have hpk' : truthy pkg = false := by
          cases hv : truthy pkg
          · rfl
          · exact absurd hv hpk
        simp only [hpk', Bool.not_false, if_true]
        exact h

theorem foldl_processNotification_mono (u : Bool) (d : String)
    (batch : List (String × FVal)) :
    ∀ (acc : SyncResult × DB) (d' : String) (ts' : Int),
      (findNotification acc.2.notifications d' ts').isSome = true →
      (findNotification ((batch.foldl (processNotification u d) acc).2).notifications d' ts').isSome = true := by
  induction batch with
  | nil => intro acc d' ts' h; exact h
  | cons e es ih =>
    intro acc d' ts' h
    rw [List.foldl_cons]
    exact ih _ _ _ (processNotification_mono u d acc e d' ts' h)

theorem processNotification_covers (u : Bool) (d : String) (acc : SyncResult × DB)
    (e : String × FVal) (hwf : notifWF e = true) :
    notifSynced (processNotification u d acc e).2.notifications d e := by
  intro ts hts
  have hq : ∃ q, parseNotifData e.2 = some q := by
    have h2 := (Bool.and_eq_true _ _ |>.mp hwf).2
    cases hq : parseNotifData e.2
    · rw [hq] at h2; exact absurd h2 (by simp)
    · exact ⟨_, rfl⟩
  obtain ⟨⟨pkg, ti, tx⟩, hq⟩ := hq
  have hpk : truthy pkg = true := by
    have h2 := (Bool.and_eq_true _ _ |>.mp hwf).2
    rw [hq] at h2
    exact h2
  unfold processNotification
  simp only [hts, hq, hpk, Bool.not_true, Bool.false_eq_true, if_false]
  cases hf : findNotification acc.2.notifications d ts with
  | none =>
    simp only [hf]
    rw [hasNotif_append]
    have hrow : (findNotification [⟨d, ts, pkg, ti, tx⟩] d ts).isSome = true := by
      unfold findNotification
      simp [List.find?]
    rw [hrow, Bool.or_true]
  | some n =>
    simp only [hf]
    split
    · rw [findNotification_overwriteNotification, hf]
      simp
    · rw [hf]
      simp

theorem foldl_processNotification_coverage (u : Bool) (d : String)
    (batch : List (String × FVal)) :
    ∀ (acc : SyncResult × DB) (e : String × FVal), e ∈ batch → notifWF e = true →
      notifSynced ((batch.foldl (processNotification u d) acc).2).notifications d e := by
  induction batch with
  | nil => intro acc e he; exact absurd he (List.not_mem_nil e)
  | cons f es ih =>
    intro acc e he hwf
    rw [List.foldl_cons]
    rcases List.mem_cons.mp he with rfl | he'
    · intro ts hts
      exact foldl_processNotification_mono u d es _ d ts
        (processNotification_covers u d acc e hwf ts hts)
    · exact ih _ e he' hwf

theorem processNotification_count_false (d : String) (acc : SyncResult × DB)
    (e : String × FVal) :
    (processNotification false d acc e).1.notifications_created +
      (processNotification false d acc e).1.notifications_skipped =
      acc.1.notifications_created + acc.1.notifications_skipped +
        (if notifCounted e then 1 else 0) ∧
    (processNotification false d acc e).1.notifications_updated =
      acc.1.notifications_updated := by
  unfold processNotification notifCounted
  cases hp : parseIntStr e.1 with
  | none => simp [hp]
  | some ts =>
    cases hq : parseNotifData e.2 with
    | none => simp [hp, hq] <;> omega
    | some q =>
      obtain ⟨pkg, ti, tx⟩ := q
      by_cases hpk : truthy pkg = true
      · cases hf : findNotification acc.2.notifications d ts with
        | none => simp [hp, hq, hpk, hf] <;> omega
        | some n => simp [hp, hq, hpk, hf] <;> omega
      · have hpk' : truthy pkg = false := by
          cases hv : truthy pkg
          · rfl
          · exact absurd hv hpk
        simp [hp, hq, hpk'] <;> omega

theorem foldl_processNotification_count_false (d : String)
    (batch : List (String × FVal)) :
    ∀ (acc : SyncResult × DB),
      (batch.foldl (processNotification false d) acc).1.notifications_created +
        (batch.foldl (processNotification false d) acc).1.notifications_skipped =
        acc.1.notifications_created + acc.1.notifications_skipped +
          batch.countP notifCounted ∧
      (batch.foldl (processNotification false d) acc).1.notifications_updated =
        acc.1.notifications_updated := by
  induction batch with
  | nil => intro acc; simp
  | cons e es ih =>
    intro acc
    rw [List.foldl_cons]
    obtain ⟨h1, h2⟩ := processNotification_count_false d acc e
    obtain ⟨h3, h4⟩ := ih (processNotification false d acc e)
    refine ⟨?_, by rw [h4, h2]⟩
    rw [h3, List.countP_cons]
    by_cases hk : notifCounted e = true <;> simp [hk] at h1 ⊢ <;> omega

theorem processNotification_skip_existing (d : String) (acc : SyncResult × DB)
    (e : String × FVal)
    (hcov : notifWF e = true → notifSynced acc.2.notifications d e) :
    processNotification false d acc e =
      (if notifCounted e then
        { acc.1 with notifications_skipped := acc.1.notifications_skipped + 1 }
       else if msgKeyed e then acc.1
       else { acc.1 with errors := acc.1.errors ++ [notifErrString e.1] }, acc.2) := by
  unfold processNotification notifCounted msgKeyed
  cases hp : parseIntStr e.1 with
  | none => simp [hp]
  | some ts =>
    cases hq : parseNotifData e.2 with
    | none => simp [hp, hq]
    | some q =>
      obtain ⟨pkg, ti, tx⟩ := q
      by_cases hpk : truthy pkg = true
      · have hs : (findNotification acc.2.notifications d ts).isSome = true := by
          refine hcov ?_ ts hp
          unfold notifWF
          rw [hp, hq]
          simpa using hpk
        rw [Option.isSome_iff_exists] at hs
        obtain ⟨n, hn⟩ := hs
        simp [hp, hq, hpk, hn]
      · have hpk' : truthy pkg = false := by
          cases hv : truthy pkg
          · rfl
          · exact absurd hv hpk
        simp [hp, hq, hpk']

theorem foldl_processNotification_skip_existing (d : String)
    (batch : List (String × FVal)) :
    ∀ (acc : SyncResult × DB),
      (∀ e ∈ batch, notifWF e = true → notifSynced acc.2.notifications d e) →
      (batch.foldl (processNotification false d) acc).1.notifications_skipped =
          acc.1.notifications_skipped + batch.countP notifCounted ∧
      (batch.foldl (processNotification false d) acc).1.notifications_created =
          acc.1.notifications_created ∧
      (batch.foldl (processNotification false d) acc).1.notifications_updated =
          acc.1.notifications_updated ∧
      (batch.foldl (processNotification false d) acc).2 = acc.2 := by
  induction batch with
  | nil => intro acc _; simp
  | cons e es ih =>
    intro acc hcov
    rw [List.foldl_cons]
    rw [processNotification_skip_existing d acc e (hcov e (List.mem_cons_self e es))]
    by_cases hk : notifCounted e = true
    · rw [if_pos hk]
      obtain ⟨h1, h2, h3, h4⟩ := ih
        ({ acc.1 with notifications_skipped := acc.1.notifications_skipped + 1 }, acc.2)
        (fun f hf => hcov f (List.mem_cons_of_mem e hf))
      refine ⟨?_, h2, h3, h4⟩
      rw [h1, List.countP_cons]
      simp [hk]
      omega
    · rw [if_neg hk]
      by_cases hk2 : msgKeyed e = true
      · rw [if_pos hk2]
        obtain ⟨h1, h2, h3, h4⟩ := ih (acc.1, acc.2)
          (fun f hf => hcov f (List.mem_cons_of_mem e hf))
        refine ⟨?_, h2, h3, h4⟩
        rw [h1, List.countP_cons]
        simp [hk]
      · rw [if_neg hk2]
        obtain ⟨h1, h2, h3, h4⟩ := ih
          ({ acc.1 with errors := acc.1.errors ++ [notifErrString e.1] }, acc.2)
          (fun f hf => hcov f (List.mem_cons_of_mem e hf))
        refine ⟨?_, h2, h3, h4⟩
        rw [h1, List.countP_cons]
        simp [hk]

/-! ### Contact reconciliation semantics -/

/-- The natural key (the dictionary key, a phone number) of entry `e` has a
contact row in `l`; every contact entry reaches the keyed upsert. -/
def contactSynced (l : List ContactRow) (d : String) (e : String × FVal) : Prop :=
  (findContact l d e.1).isSome = true

theorem processContact_mono (u : Bool) (d : String) (acc : SyncResult × DB)
    (e : String × FVal) (d' : String) (ph' : String)
    (h : (findContact acc.2.contacts d' ph').isSome = true) :
    (findContact (processContact u d acc e).2.contacts d' ph').isSome = true := by
  unfold processContact
  cases hf : findContact acc.2.contacts d e.1 with
  | none =>
    simp only [hf]
    rw [hasContact_append, h, Bool.true_or]
  | some c =>
    simp only [hf]
    split
    · rw [findContact_overwriteContact]
      cases hfc : findContact acc.2.contacts d' ph'
      · rw [hfc] at h; exact absurd h (by simp)
      · simp
    · exact h

theorem foldl_processContact_mono (u : Bool) (d : String) (batch : List (String × FVal)) :
    ∀ (acc : SyncResult × DB) (d' : String) (ph' : String),
      (findContact acc.2.contacts d' ph').isSome = true →
      (findContact ((batch.foldl (processContact u d) acc).2).contacts d' ph').isSome = true := by
  induction batch with
  | nil => intro acc d' ph' h; exact h
  | cons e es ih =>
    intro acc d' ph' h
    rw [List.foldl_cons]
    exact ih _ _ _ (processContact_mono u d acc e d' ph' h)

theorem processContact_covers (u : Bool) (d : String) (acc : SyncResult × DB)
    (e : String × FVal) :
    contactSynced (processContact u d acc e).2.contacts d e := by
  unfold contactSynced processContact
  cases hf : findContact acc.2.contacts d e.1 with
  | none =>
    simp only [hf]
    rw [hasContact_append]
    have hrow : (findContact
        [⟨d, e.1, storedContactFields (parseContactData e.1 e.2)⟩] d e.1).isSome = true := by
      unfold findContact
      simp [List.find?]
    rw [hrow, Bool.or_true]
  | some c =>
    simp only [hf]
    split
    · rw [findContact_overwriteContact, hf]
      simp
    · rw [hf]
      simp

theorem foldl_processContact_coverage (u : Bool) (d : String)
    (batch : List (String × FVal)) :
    ∀ (acc : SyncResult × DB) (e : String × FVal), e ∈ batch →
      contactSynced ((batch.foldl (processContact u d) acc).2).contacts d e := by
  induction batch with
  | nil => intro acc e he; exact absurd he (List.not_mem_nil e)
  | cons f es ih =>
    intro acc e he
    rw [List.foldl_cons]
    rcases List.mem_cons.mp he with rfl | he'
    · exact foldl_processContact_mono u d es _ d e.1 (processContact_covers u d acc e)
    · exact ih _ e he'

theorem processContact_count_false (d : String) (acc : SyncResult × DB)
    (e : String × FVal) :
    (processContact false d acc e).1.contacts_created +
      (processContact false d acc e).1.contacts_skipped =
      acc.1.contacts_created + acc.1.contacts_skipped + 1 ∧
    (processContact false d acc e).1.contacts_updated = acc.1.contacts_updated := by
  unfold processContact
  cases hf : findContact acc.2.contacts d e.1 with
  | none => simp [hf] <;> omega
  | some c => simp [hf] <;> omega

theorem foldl_processContact_count_false (d : String) (batch : List (String × FVal)) :
    ∀ (acc : SyncResult × DB),
      (batch.foldl (processContact false d) acc).1.contacts_created +
        (batch.foldl (processContact false d) acc).1.contacts_skipped =
        acc.1.contacts_created + acc.1.contacts_skipped + batch.length ∧
      (batch.foldl (processContact false d) acc).1.contacts_updated =
        acc.1.contacts_updated := by
  induction batch with
  | nil => intro acc; simp
  | cons e es ih =>
    intro acc
    rw [List.foldl_cons]
    obtain ⟨h1, h2⟩ := processContact_count_false d acc e
    obtain ⟨h3, h4⟩ := ih (processContact false d acc e)
    refine ⟨?_, by rw [h4, h2]⟩
    rw [h3]
    simp
    omega

theorem processContact_skip_existing (d : String) (acc : SyncResult × DB)
    (e : String × FVal) (hcov : contactSynced acc.2.contacts d e) :
    processContact false d acc e =
      ({ acc.1 with contacts_skipped := acc.1.contacts_skipped + 1 }, acc.2) := by
  unfold processContact
  unfold contactSynced at hcov
  rw [Option.isSome_iff_exists] at hcov
  obtain ⟨c, hc⟩ := hcov
  simp [hc]

theorem foldl_processContact_skip_existing (d : String) (batch : List (String × FVal)) :
    ∀ (acc : SyncResult × DB),
      (∀ e ∈ batch, contactSynced acc.2.contacts d e) →
      (batch.foldl (processContact false d) acc).1.contacts_skipped =
          acc.1.contacts_skipped + batch.length ∧
      (batch.foldl (processContact false d) acc).1.contacts_created =
          acc.1.contacts_created ∧
      (batch.foldl (processContact false d) acc).1.contacts_updated =
          acc.1.contacts_updated ∧
      (batch.foldl (processContact false d) acc).2 = acc.2 := by
  induction batch with
  | nil => intro acc _; simp
  | cons e es ih =>
    intro acc hcov
    rw [List.foldl_cons]
    rw [processContact_skip_existing d acc e (hcov e (List.mem_cons_self e es))]
    obtain ⟨h1, h2, h3, h4⟩ := ih
      ({ acc.1 with contacts_skipped := acc.1.contacts_skipped + 1 }, acc.2)
      (fun f hf => hcov f (List.mem_cons_of_mem e hf))
    refine ⟨?_, h2, h3, h4⟩
    rw [h1]
    simp
    omega

/-! ### Device phase and final status block -/

theorem finalizeDeviceRow_device_id (res : SyncResult) (now : Nat) (dev : DeviceRow) :
    (finalizeDeviceRow res now dev).device_id = dev.device_id := by
  unfold finalizeDeviceRow
  try dsimp only
  split <;> rfl

theorem finalizeDeviceRow_failed (res : SyncResult) (now : Nat) (dev : DeviceRow)
    (h : res.errors.isEmpty = false) :
    (finalizeDeviceRow res now dev).sync_status = "sync_failed" ∧
    (finalizeDeviceRow res now dev).sync_error_message =
      some (String.intercalate "; " (res.errors.take 500)) := by
  unfold finalizeDeviceRow
  simp [h]

theorem finalizeDeviceRow_ok (res : SyncResult) (now : Nat) (dev : DeviceRow)
    (h : res.errors.isEmpty = true) :
    (finalizeDeviceRow res now dev).sync_status = "synced" ∧
    (finalizeDeviceRow res now dev).sync_error_message = none := by
  unfold finalizeDeviceRow
  simp [h]

theorem deviceUpdateRow_device_id (info : List (String × FVal)) (isAct : Bool)
    (x : DeviceRow) : (deviceUpdateRow info isAct x).device_id = x.device_id := rfl

theorem syncDevicePhase_findDevice (u : Bool) (d : String) (info : List (String × FVal))
    (res : SyncResult) (db : DB) :
    ∃ dev, findDevice (syncDevicePhase u d info res db).2.devices d = some dev := by
  unfold syncDevicePhase
  try dsimp only
  split
  · next heq =>
    refine ⟨deviceDefaults d info
      (normalizeIsActive (dictGetD info "isActive" (.vbool false))), ?_⟩
    show (List.find? _ (_ ++ [deviceDefaults d info
      (normalizeIsActive (dictGetD info "isActive" (.vbool false)))])) = _
    rw [List.find?_append]
    unfold findDevice at heq
    rw [heq]
    simp [List.find?, deviceDefaults]
  · next dev heq =>
    by_cases hu : u = true
    · simp only [hu, if_true]
      refine ⟨(if dev.device_id == d then
        deviceUpdateRow info (normalizeIsActive (dictGetD info "isActive" (.vbool false))) dev
        else dev), ?_⟩
      show findDevice (updDevices _ d
        (deviceUpdateRow info (normalizeIsActive (dictGetD info "isActive" (.vbool false))))) d = _
      rw [findDevice_updDevices _ _
        (deviceUpdateRow info (normalizeIsActive (dictGetD info "isActive" (.vbool false))))
        (deviceUpdateRow_device_id info _), heq]
      rfl
    · simp only [hu, if_false]
      exact ⟨dev, heq⟩

theorem syncDevicePhase_found (u : Bool) (d : String) (info : List (String × FVal))
    (res : SyncResult) (db : DB)
    (h : (findDevice db.devices d).isSome = true) :
    (syncDevicePhase u d info res db).2.devices.length = db.devices.length ∧
    (syncDevicePhase u d info res db).1.device_created = res.device_created := by
  rw [Option.isSome_iff_exists] at h
  obtain ⟨dev, hdev⟩ := h
  have hsc : findDevice (updateDevice db d
      (fun dev => { dev with sync_status := "syncing", sync_error_message := none })).devices d =
      some (if dev.device_id == d then
        { dev with sync_status := "syncing", sync_error_message := none } else dev) := by
    show findDevice (updDevices db.devices d
      (fun dev => { dev with sync_status := "syncing", sync_error_message := none })) d = _
    rw [findDevice_updDevices db.devices d
      (fun dev => { dev with sync_status := "syncing", sync_error_message := none })
      (fun x => rfl), hdev]
    rfl
  unfold syncDevicePhase
  try dsimp only
  rw [hsc]
  by_cases hu : u = true <;>
    simp [hu, updateDevice, updDevices]

theorem hard_sync_run (env : FirebaseEnv) (db : DB) (d : String) (u : Bool) (now : Nat)
    (hav : env.available = true)
    (hinfo : (fetchData env (deviceInfoPathsFor d)).isEmpty = false) :
    hard_sync_device_from_firebase env db d u now =
      finalizeSync d now (hardSyncCore env db d u (fetchData env (deviceInfoPathsFor d))).1
        (hardSyncCore env db d u (fetchData env (deviceInfoPathsFor d))).2 := by
  unfold hard_sync_device_from_firebase hardSyncBody
  simp [hav, hinfo]

theorem hardSyncCore_device (env : FirebaseEnv) (db : DB) (d : String) (u : Bool)
    (info : List (String × FVal)) :
    ∃ dev, findDevice (hardSyncCore env db d u info).2.devices d = some dev := by
  unfold hardSyncCore
  obtain ⟨dev, hdev⟩ := syncDevicePhase_findDevice u d info { device_id := d } db
  obtain ⟨mf, mc, mu, ms, merr, ml, hm⟩ :=
    msgsPhase_shape env u d (syncDevicePhase u d info { device_id := d } db)
  obtain ⟨nf, nc, nu, ns, nerr, nl, hn⟩ :=
    notifsPhase_shape env u d (msgsPhase env u d (syncDevicePhase u d info { device_id := d } db))
  obtain ⟨cf, cc, cu, cs, cl, hc⟩ :=
    contactsPhase_shape env u d (notifsPhase env u d (msgsPhase env u d
      (syncDevicePhase u d info { device_id := d } db)))
  refine ⟨dev, ?_⟩
  rw [hc, hn, hm]
  exact hdev

/-! ## Claims -/

/-- C1 (counterexample): the claim says every run whose result has at least
one error persists `sync_status = 'sync_failed'` — "including the case where
the external store returns no device data". On a store with no device data
and a device previously `synced`, the run appends one error yet returns early
(utils.py line 332) and leaves the persisted status `synced`. -/
def c1Env : FirebaseEnv :=
  { available := true, initOk := true, store := fun _ => .empty }

/-- A device row previously marked `synced`, used by counterexamples. -/
def syncedDevice (d : String) : DeviceRow :=
  { device_id := d, name := .vnull, model := .vnull, phone := .vnull, code := .vnull
  , is_active := true, last_seen := .vnull, battery_percentage := .vnull
  , current_phone := .vnull, current_identifier := .vnull, time := .vnull
  , bankcard := .vstr "BANKCARD", system_info := .vdict []
  , sync_status := "synced", sync_error_message := none
  , last_sync_at := some 1, last_hard_sync_at := some 1
  , messages_last_synced_at := none, notifications_last_synced_at := none
  , contacts_last_synced_at := none, sync_metadata := [] }

/-- C1 counterexample: a run with one error after which the persisted
`sync_status` is still `synced`, not `sync_failed`. -/
theorem C1_counterexample :
    (hard_sync_device_from_firebase c1Env
        ⟨[syncedDevice "D1"], [], [], []⟩ "D1" true 5).1.errors.length = 1 ∧
    ((findDevice (hard_sync_device_from_firebase c1Env
        ⟨[syncedDevice "D1"], [], [], []⟩ "D1" true 5).2.devices "D1").map
      (fun dev => dev.sync_status)) = some "synced" := by
  constructor
  · rfl
  · rfl

/-- C1 (amended): for every run in which the external store yields device
data (the only runs that reach the final status block), the persisted status
reflects the error count: at least one error gives `sync_failed` with an
error message persisted, zero errors give `synced` with the message cleared —
so `synced` is persisted only by an error-free run. When no device data is
found the run appends an error but leaves the device row untouched. -/
theorem C1_status_consistency (env : FirebaseEnv) (db : DB) (d : String) (u : Bool)
    (now : Nat) (hav : env.available = true)
    (hinfo : (fetchData env (deviceInfoPathsFor d)).isEmpty = false) :
    ((hard_sync_device_from_firebase env db d u now).1.errors ≠ [] →
      ∃ dev, findDevice (hard_sync_device_from_firebase env db d u now).2.devices d = some dev ∧
        dev.sync_status = "sync_failed" ∧ dev.sync_error_message.isSome = true) ∧
    ((hard_sync_device_from_firebase env db d u now).1.errors = [] →
      ∃ dev, findDevice (hard_sync_device_from_firebase env db d u now).2.devices d = some dev ∧
        dev.sync_status = "synced" ∧ dev.sync_error_message = none) := by
  rw [hard_sync_run env db d u now hav hinfo]
  obtain ⟨dev0, hdev0⟩ := hardSyncCore_device env db d u (fetchData env (deviceInfoPathsFor d))
  rw [finalizeSync_found d now _ _ dev0 hdev0]
  have hid : (dev0.device_id == d) = true := by
    have h := hdev0
    unfold findDevice at h
    have h2 := List.find?_some h
    simpa using h2
  have hfind : findDevice (updateDevice
      (hardSyncCore env db d u (fetchData env (deviceInfoPathsFor d))).2 d
      (finalizeDeviceRow (hardSyncCore env db d u (fetchData env (deviceInfoPathsFor d))).1 now)).devices d =
      some (finalizeDeviceRow (hardSyncCore env db d u (fetchData env (deviceInfoPathsFor d))).1 now dev0) := by
    show findDevice (updDevices _ d _) d = _
    rw [findDevice_updDevices _ _ _ (finalizeDeviceRow_device_id _ now), hdev0]
    rw [Option.map_some']
    rw [if_pos hid]
  constructor
  · intro herr
    have hne : (hardSyncCore env db d u (fetchData env (deviceInfoPathsFor d))).1.errors.isEmpty = false := by
      cases hcases : (hardSyncCore env db d u (fetchData env (deviceInfoPathsFor d))).1.errors
      · exact absurd hcases herr
      · rfl
    obtain ⟨hs, hm⟩ := finalizeDeviceRow_failed _ now dev0 hne
    exact ⟨_, hfind, hs, by rw [hm]; rfl⟩
  · intro herr
    have he : (hardSyncCore env db d u (fetchData env (deviceInfoPathsFor d))).1.errors.isEmpty = true := by
      rw [herr]; rfl
    obtain ⟨hs, hm⟩ := finalizeDeviceRow_ok _ now dev0 he
    exact ⟨_, hfind, hs, hm⟩

/-- Environment used by witnesses: device info and one well-formed message
for device `D1`. -/
def wEnv : FirebaseEnv :=
  { available := true, initOk := true
  , store := fun p =>
      if p == "device/D1" then .data [("name", .vstr "Dev"), ("isActive", .vstr "opened")]
      else if p == "fastpay/D1/messages" then
        .data [("100", .vstr "received~111~hello")]
      else .empty }

/-- The empty relational store. -/
def emptyDB : DB := ⟨[], [], [], []⟩

/-- C1 witness: the amended statement instantiated on a concrete error-free
run, whose hypotheses hold by computation. -/
theorem C1_status_consistency_witness :
    ((hard_sync_device_from_firebase wEnv emptyDB "D1" true 5).1.errors ≠ [] →
      ∃ dev, findDevice (hard_sync_device_from_firebase wEnv emptyDB "D1" true 5).2.devices "D1" = some dev ∧
        dev.sync_status = "sync_failed" ∧ dev.sync_error_message.isSome = true) ∧
    ((hard_sync_device_from_firebase wEnv emptyDB "D1" true 5).1.errors = [] →
      ∃ dev, findDevice (hard_sync_device_from_firebase wEnv emptyDB "D1" true 5).2.devices "D1" = some dev ∧
        dev.sync_status = "synced" ∧ dev.sync_error_message = none) :=
  C1_status_consistency wEnv emptyDB "D1" true 5 rfl rfl

/-- A 600-character non-numeric message key. Processing it raises
`ValueError` in `int(...)`, producing one error string that embeds the key
and is therefore far longer than 500 characters. -/
def c2LongKey : String := String.mk (List.replicate 600 'x')

/-- Store for the C2 run: device info plus one message entry under the long
non-numeric key. -/
def c2Env : FirebaseEnv :=
  { available := true, initOk := true
  , store := fun p =>
      if p == "device/D1" then .data [("name", .vstr "Dev")]
      else if p == "fastpay/D1/messages" then .data [(c2LongKey, .vdict [])]
      else .empty }

/-- The C2 run and its persisted device row. -/
def c2Run : SyncResult × DB := hard_sync_device_from_firebase c2Env emptyDB "D1" true 5

set_option maxRecDepth 10000 in
/-- C2: the claim (and the comment at utils.py line 642) says the persisted
`sync_error_message` is at most 500 characters, but the code computes
`'; '.join(result['errors'][:500])`, slicing the errors LIST to 500 entries
instead of truncating the joined string (contrast `str(e)[:500]` at line
683). One error of more than 500 characters is persisted in full. -/
theorem C2_error_message_exceeds_limit :
    c2Run.1.errors.length = 1 ∧
    ((findDevice c2Run.2.devices "D1").map (fun dev => dev.sync_status)) =
      some "sync_failed" ∧
    500 < (((findDevice c2Run.2.devices "D1").bind
      (fun dev => dev.sync_error_message)).getD "").length := by
  refine ⟨rfl, rfl, ?_⟩
  decide

/-- Store for the C3 counterexample: device info plus one notification whose
legacy string form has an empty package field. -/
def c3Env : FirebaseEnv :=
  { available := true, initOk := true
  , store := fun p =>
      if p == "device/D1" then .data [("name", .vstr "Dev")]
      else if p == "device/D1/Notification" then .data [("100", .vstr "~Title~Body")]
      else .empty }

/-- C3 counterexample: a fetched notification record with no row under its
natural key for which the reconciler neither creates a row nor increments
any count (utils.py lines 484-485), refuting the claim's universal
"if no row with that key exists it creates one and increments created". -/
theorem C3_counterexample :
    (hard_sync_device_from_firebase c3Env emptyDB "D1" true 5).1.notifications_fetched = 1 ∧
    (hard_sync_device_from_firebase c3Env emptyDB "D1" true 5).1.notifications_created = 0 ∧
    (hard_sync_device_from_firebase c3Env emptyDB "D1" true 5).1.notifications_updated = 0 ∧
    (hard_sync_device_from_firebase c3Env emptyDB "D1" true 5).1.notifications_skipped = 0 ∧
    (hard_sync_device_from_firebase c3Env emptyDB "D1" true 5).1.errors = [] ∧
    (hard_sync_device_from_firebase c3Env emptyDB "D1" true 5).2.notifications = [] := by
  refine ⟨rfl, rfl, rfl, rfl, rfl, rfl⟩

/-- C3 (amended): the upsert trichotomy holds for every fetched record that
normalizes — a parsable key and a recognized shape, and for notifications
additionally a truthy package name; contact entries always normalize. If no
row with the natural key exists, a row is created and `created` incremented;
if a row exists and `update_existing` is true, its fields are overwritten and
`updated` incremented; if a row exists and `update_existing` is false, the
table is untouched and `skipped` incremented. -/
theorem C3_upsert (u : Bool) (d : String) (res : SyncResult) (db : DB) :
    (∀ k v ts t0 p b r, parseIntStr k = some ts → parseMsgData v = some (t0, p, b, r) →
      ((findMessage db.messages d ts = none →
        processMessage u d (res, db) (k, v) =
          ({ res with messages_created := res.messages_created + 1 },
           { db with messages := db.messages ++ [⟨d, ts, normMsgType t0, p, b, r⟩] })) ∧
       (∀ m, findMessage db.messages d ts = some m → u = true →
        processMessage u d (res, db) (k, v) =
          ({ res with messages_updated := res.messages_updated + 1 },
           { db with messages := overwriteMessage db.messages d ts (normMsgType t0) p b r })) ∧
       (∀ m, findMessage db.messages d ts = some m → u = false →
        processMessage u d (res, db) (k, v) =
          ({ res with messages_skipped := res.messages_skipped + 1 }, db)))) ∧
    (∀ k v ts pkg ti tx, parseIntStr k = some ts → parseNotifData v = some (pkg, ti, tx) →
      truthy pkg = true →
      ((findNotification db.notifications d ts = none →
        processNotification u d (res, db) (k, v) =
          ({ res with notifications_created := res.notifications_created + 1 },
           { db with notifications := db.notifications ++ [⟨d, ts, pkg, ti, tx⟩] })) ∧
       (∀ n, findNotification db.notifications d ts = some n → u = true →
        processNotification u d (res, db) (k, v) =
          ({ res with notifications_updated := res.notifications_updated + 1 },
           { db with notifications := overwriteNotification db.notifications d ts pkg ti tx })) ∧
       (∀ n, findNotification db.notifications d ts = some n → u = false →
        processNotification u d (res, db) (k, v) =
          ({ res with notifications_skipped := res.notifications_skipped + 1 }, db)))) ∧
    (∀ k v,
      ((findContact db.contacts d k = none →
        processContact u d (res, db) (k, v) =
          ({ res with contacts_created := res.contacts_created + 1 },
           { db with contacts :=
              db.contacts ++ [⟨d, k, storedContactFields (parseContactData k v)⟩] })) ∧
       (∀ c, findContact db.contacts d k = some c → u = true →
        processContact u d (res, db) (k, v) =
          ({ res with contacts_updated := res.contacts_updated + 1 },
           { db with contacts :=
              overwriteContact db.contacts d k (storedContactFields (parseContactData k v)) })) ∧
       (∀ c, findContact db.contacts d k = some c → u = false →
        processContact u d (res, db) (k, v) =
          ({ res with contacts_skipped := res.contacts_skipped + 1 }, db)))) := by
  refine ⟨?_, ?_, ?_⟩
  · intro k v ts t0 p b r hp hq
    refine ⟨?_, ?_, ?_⟩
    · intro hf
      unfold processMessage
      simp [hp, hq, hf]
    · intro m hf hu
      unfold processMessage
      simp [hp, hq, hf, hu]
    · intro m hf hu
      unfold processMessage
      simp [hp, hq, hf, hu]
  · intro k v ts pkg ti tx hp hq hpk
    refine ⟨?_, ?_, ?_⟩
    · intro hf
      unfold processNotification
      simp [hp, hq, hpk, hf]
    · intro n hf hu
      unfold processNotification
      simp [hp, hq, hpk, hf, hu]
    · intro n hf hu
      unfold processNotification
      simp [hp, hq, hpk, hf, hu]
  · intro k v
    refine ⟨?_, ?_, ?_⟩
    · intro hf
      unfold processContact
      simp [hf]
    · intro c hf hu
      unfold processContact
      simp [hf, hu]
    · intro c hf hu
      unfold processContact
      simp [hf, hu]

/-- C3 witness: the create branch of the message upsert instantiated on a
fresh store and the tilde-string entry `sent~222~yo`. -/
theorem C3_upsert_witness :
    processMessage false "D1" (({ device_id := "D1" } : SyncResult), emptyDB)
        ("100", .vstr "sent~222~yo") =
      ({ ({ device_id := "D1" } : SyncResult) with messages_created :=
          ({ device_id := "D1" } : SyncResult).messages_created + 1 },
       { emptyDB with messages := emptyDB.messages ++
          [⟨"D1", 100, normMsgType (.vstr "sent"), .vstr "222", .vstr "yo", .vbool false⟩] }) :=
  ((C3_upsert false "D1" { device_id := "D1" } emptyDB).1 "100" (.vstr "sent~222~yo")
    100 (.vstr "sent") (.vstr "222") (.vstr "yo") (.vbool false) rfl rfl).1 rfl

theorem updateDevice_find_isSome (db : DB) (d : String) (f : DeviceRow → DeviceRow)
    (hf : ∀ x, (f x).device_id = x.device_id)
    (h : (findDevice db.devices d).isSome = true) :
    (findDevice (updateDevice db d f).devices d).isSome = true := by
  rw [Option.isSome_iff_exists] at h
  obtain ⟨dev, hdev⟩ := h
  show (findDevice (updDevices db.devices d f) d).isSome = true
  rw [findDevice_updDevices db.devices d f hf, hdev]
  rfl

theorem updateDevice_devices_length (db : DB) (d : String) (f : DeviceRow → DeviceRow) :
    (updateDevice db d f).devices.length = db.devices.length := by
  simp [updateDevice, updDevices]

/-- Store for the C4 counterexample: device info plus one well-formed message
and one malformed (integer-valued) message entry. -/
def c4Env : FirebaseEnv :=
  { available := true, initOk := true
  , store := fun p =>
      if p == "device/D1" then .data [("name", .vstr "Dev")]
      else if p == "fastpay/D1/messages" then
        .data [("100", .vstr "received~a~b"), ("200", .vint 7)]
      else .empty }

/-- First C4 run with `update_existing = False` on an empty store. -/
def c4Run1 : SyncResult × DB := hard_sync_device_from_firebase c4Env emptyDB "D1" false 5

/-- Second C4 run over the first run's database. -/
def c4Run2 : SyncResult × DB := hard_sync_device_from_firebase c4Env c4Run1.2 "D1" false 6

/-- C4 counterexample: with a malformed entry in the batch, the second run's
skipped count (2: the now-existing row plus the malformed entry, which is
counted as skipped on BOTH runs) exceeds the first run's created count (1),
refuting "the second run's skipped count ... equals the first run's created
count". -/
theorem C4_counterexample :
    c4Run1.1.messages_created = 1 ∧ c4Run1.1.messages_skipped = 1 ∧
    c4Run2.1.messages_skipped = 2 := ⟨rfl, rfl, rfl⟩

/-- C4 (amended): rerunning the reconciliation with `update_existing = False`
against the same external data creates zero new rows (all three tables are
unchanged, the device table keeps its length, and every created count of the
second run is zero), and the second run's skipped count per kind equals the
first run's created count PLUS the first run's skipped count (entries that
were already present or malformed are skipped again). -/
theorem C4_idempotence (env : FirebaseEnv) (db0 : DB) (d : String) (now now2 : Nat)
    (hav : env.available = true)
    (hinfo : (fetchData env (deviceInfoPathsFor d)).isEmpty = false) :
    (hard_sync_device_from_firebase env
        (hard_sync_device_from_firebase env db0 d false now).2 d false now2).2.messages =
      (hard_sync_device_from_firebase env db0 d false now).2.messages ∧
    (hard_sync_device_from_firebase env
        (hard_sync_device_from_firebase env db0 d false now).2 d false now2).2.notifications =
      (hard_sync_device_from_firebase env db0 d false now).2.notifications ∧
    (hard_sync_device_from_firebase env
        (hard_sync_device_from_firebase env db0 d false now).2 d false now2).2.contacts =
      (hard_sync_device_from_firebase env db0 d false now).2.contacts ∧
    (hard_sync_device_from_firebase env
        (hard_sync_device_from_firebase env db0 d false now).2 d false now2).2.devices.length =
      (hard_sync_device_from_firebase env db0 d false now).2.devices.length ∧
    (hard_sync_device_from_firebase env
        (hard_sync_device_from_firebase env db0 d false now).2 d false now2).1.device_created = false ∧
    (hard_sync_device_from_firebase env
        (hard_sync_device_from_firebase env db0 d false now).2 d false now2).1.messages_created = 0 ∧
    (hard_sync_device_from_firebase env
        (hard_sync_device_from_firebase env db0 d false now).2 d false now2).1.notifications_created = 0 ∧
    (hard_sync_device_from_firebase env
        (hard_sync_device_from_firebase env db0 d false now).2 d false now2).1.contacts_created = 0 ∧
    (hard_sync_device_from_firebase env
        (hard_sync_device_from_firebase env db0 d false now).2 d false now2).1.messages_skipped =
      (hard_sync_device_from_firebase env db0 d false now).1.messages_created +
      (hard_sync_device_from_firebase env db0 d false now).1.messages_skipped ∧
    (hard_sync_device_from_firebase env
        (hard_sync_device_from_firebase env db0 d false now).2 d false now2).1.notifications_skipped =
      (hard_sync_device_from_firebase env db0 d false now).1.notifications_created +
      (hard_sync_device_from_firebase env db0 d false now).1.notifications_skipped ∧
    (hard_sync_device_from_firebase env
        (hard_sync_device_from_firebase env db0 d false now).2 d false now2).1.contacts_skipped =
      (hard_sync_device_from_firebase env db0 d false now).1.contacts_created +
      (hard_sync_device_from_firebase env db0 d false now).1.contacts_skipped := by
  set info := fetchData env (deviceInfoPathsFor d) with hinfodef
  set batchM := fetchData env (messagePathsFor d) with hbM
  set batchN := fetchData env (notificationPathsFor d) with hbN
  set batchC := fetchData env (contactPathsFor d) with hbC
  set s0 : SyncResult := { device_id := d } with hs0
  -- ===== run 1 =====
  set sd1 := syncDevicePhase false d info s0 db0 with hsd1def
  set m1 := msgsPhase env false d sd1 with hm1def
  set n1 := notifsPhase env false d m1 with hn1def
  set c1 := contactsPhase env false d n1 with hc1def
  have hrun1 : hard_sync_device_from_firebase env db0 d false now =
      finalizeSync d now c1.1 c1.2 := hard_sync_run env db0 d false now hav hinfo
  obtain ⟨dev0, hdev0⟩ : ∃ dev, findDevice c1.2.devices d = some dev :=
    hardSyncCore_device env db0 d false info
  have hfin1 : finalizeSync d now c1.1 c1.2 =
      (c1.1, updateDevice c1.2 d (finalizeDeviceRow c1.1 now)) :=
    finalizeSync_found d now c1.1 c1.2 dev0 hdev0
  set db1 := updateDevice c1.2 d (finalizeDeviceRow c1.1 now) with hdb1def
  have hr1 : hard_sync_device_from_firebase env db0 d false now = (c1.1, db1) := by
    rw [hrun1, hfin1]
  obtain ⟨bc1, bu1, dl1, hsd1sh⟩ := syncDevicePhase_shape false d info s0 db0
  rw [← hsd1def] at hsd1sh
  obtain ⟨nf1, nc1, nu1, ns1, nerr1, nl1, hn1sh⟩ := notifsPhase_shape env false d m1
  rw [← hn1def] at hn1sh
  obtain ⟨cf1, cc1, cu1, cs1, cl1, hc1sh⟩ := contactsPhase_shape env false d n1
  rw [← hc1def] at hc1sh
  have hm1fold : m1 = batchM.foldl (processMessage false d)
      ({ sd1.1 with messages_fetched := batchM.length }, sd1.2) := rfl
  have hn1fold : n1 = batchN.foldl (processNotification false d)
      ({ m1.1 with notifications_fetched := batchN.length }, m1.2) := rfl
  have hc1fold : c1 = batchC.foldl (processContact false d)
      ({ n1.1 with contacts_fetched := batchC.length }, n1.2) := rfl
  -- run-1 coverage
  have hcovM1 : ∀ e ∈ batchM, msgWF e = true → msgSynced m1.2.messages d e := by
    intro e he hwf
    rw [hm1fold]
    exact foldl_processMessage_coverage false d batchM _ e he hwf
  have hcovN1 : ∀ e ∈ batchN, notifWF e = true → notifSynced n1.2.notifications d e := by
    intro e he hwf
    rw [hn1fold]
    exact foldl_processNotification_coverage false d batchN _ e he hwf
  have hcovC1 : ∀ e ∈ batchC, contactSynced c1.2.contacts d e := by
    intro e he
    rw [hc1fold]
    exact foldl_processContact_coverage false d batchC _ e he
  -- run-1 table chains
  have hMc1 : c1.2.messages = m1.2.messages := by rw [hc1sh, hn1sh]
  have hNc1 : c1.2.notifications = n1.2.notifications := by rw [hc1sh]
  have hMdb1 : db1.messages = m1.2.messages := by rw [hdb1def]; exact hMc1
  have hNdb1 : db1.notifications = n1.2.notifications := by rw [hdb1def]; exact hNc1
  have hCdb1 : db1.contacts = c1.2.contacts := by rw [hdb1def]; try rfl
  -- run-1 counts
  have hcntM1' := foldl_processMessage_count_false d batchM
    ({ sd1.1 with messages_fetched := batchM.length }, sd1.2)
  have hcntM1 : c1.1.messages_created + c1.1.messages_skipped = batchM.countP msgKeyed := by
    have hmm : m1.1.messages_created + m1.1.messages_skipped =
        sd1.1.messages_created + sd1.1.messages_skipped + batchM.countP msgKeyed := by
      rw [hm1fold]; exact hcntM1'.1
    have hz : sd1.1.messages_created = 0 ∧ sd1.1.messages_skipped = 0 := by
      rw [hsd1sh]; exact ⟨rfl, rfl⟩
    have hcm : c1.1.messages_created = m1.1.messages_created := by rw [hc1sh, hn1sh]
    have hcs : c1.1.messages_skipped = m1.1.messages_skipped := by rw [hc1sh, hn1sh]
    rw [hcm, hcs, hmm, hz.1, hz.2]
    omega
  have hcntN1' := foldl_processNotification_count_false d batchN
    ({ m1.1 with notifications_fetched := batchN.length }, m1.2)
  have hcntN1 : c1.1.notifications_created + c1.1.notifications_skipped =
      batchN.countP notifCounted := by
    have hnn : n1.1.notifications_created + n1.1.notifications_skipped =
        m1.1.notifications_created + m1.1.notifications_skipped + batchN.countP notifCounted := by
      rw [hn1fold]; exact hcntN1'.1
    have hz : m1.1.notifications_created = 0 ∧ m1.1.notifications_skipped = 0 := by
      obtain ⟨mf1, mc1x, mu1x, ms1x, merr1x, ml1x, hm1sh⟩ := msgsPhase_shape env false d sd1
      rw [← hm1def] at hm1sh
      constructor
      · rw [hm1sh, hsd1sh]; try rfl
      · rw [hm1sh, hsd1sh]; try rfl
    have hcn : c1.1.notifications_created = n1.1.notifications_created := by rw [hc1sh]
    have hcs : c1.1.notifications_skipped = n1.1.notifications_skipped := by rw [hc1sh]
    rw [hcn, hcs, hnn, hz.1, hz.2]
    omega
  have hcntC1' := foldl_processContact_count_false d batchC
    ({ n1.1 with contacts_fetched := batchC.length }, n1.2)
  have hcntC1 : c1.1.contacts_created + c1.1.contacts_skipped = batchC.length := by
    have hcc : c1.1.contacts_created + c1.1.contacts_skipped =
        n1.1.contacts_created + n1.1.contacts_skipped + batchC.length := by
      rw [hc1fold]; exact hcntC1'.1
    have hz : n1.1.contacts_created = 0 ∧ n1.1.contacts_skipped = 0 := by
      obtain ⟨mf1, mc1x, mu1x, ms1x, merr1x, ml1x, hm1sh⟩ := msgsPhase_shape env false d sd1
      rw [← hm1def] at hm1sh
      constructor
      · rw [hn1sh, hm1sh, hsd1sh]; try rfl
      · rw [hn1sh, hm1sh, hsd1sh]; try rfl
    rw [hcc, hz.1, hz.2]
    omega
  -- ===== run 2 =====
  have hdev1 : (findDevice db1.devices d).isSome = true := by
    rw [hdb1def]
    exact updateDevice_find_isSome c1.2 d _ (finalizeDeviceRow_device_id c1.1 now)
      (by rw [hdev0]; try rfl)
  set sd2 := syncDevicePhase false d info s0 db1 with hsd2def
  set m2 := msgsPhase env false d sd2 with hm2def
  set n2 := notifsPhase env false d m2 with hn2def
  set c2 := contactsPhase env false d n2 with hc2def
  have hrun2 : hard_sync_device_from_firebase env db1 d false now2 =
      finalizeSync d now2 c2.1 c2.2 := hard_sync_run env db1 d false now2 hav hinfo
  obtain ⟨dev2, hdev2⟩ : ∃ dev, findDevice c2.2.devices d = some dev :=
    hardSyncCore_device env db1 d false info
  have hfin2 : finalizeSync d now2 c2.1 c2.2 =
      (c2.1, updateDevice c2.2 d (finalizeDeviceRow c2.1 now2)) :=
    finalizeSync_found d now2 c2.1 c2.2 dev2 hdev2
  have hr2 : hard_sync_device_from_firebase env db1 d false now2 =
      (c2.1, updateDevice c2.2 d (finalizeDeviceRow c2.1 now2)) := by
    rw [hrun2, hfin2]
  obtain ⟨bc2, bu2, dl2, hsd2sh⟩ := syncDevicePhase_shape false d info s0 db1
  rw [← hsd2def] at hsd2sh
  obtain ⟨hlen2, hdc2⟩ := syncDevicePhase_found false d info s0 db1 hdev1
  rw [← hsd2def] at hlen2 hdc2
  have hm2fold : m2 = batchM.foldl (processMessage false d)
      ({ sd2.1 with messages_fetched := batchM.length }, sd2.2) := rfl
  -- run-2 message fold: all keys already present
  have hMsd2 : sd2.2.messages = m1.2.messages := by
    rw [hsd2sh]
    show db1.messages = m1.2.messages
    exact hMdb1
  have hcovM2 : ∀ e ∈ batchM, msgWF e = true →
      msgSynced ({ sd2.1 with messages_fetched := batchM.length }, sd2.2).2.messages d e := by
    intro e he hwf ts hts
    have hx : ({ sd2.1 with messages_fetched := batchM.length }, sd2.2).2.messages =
        m1.2.messages := hMsd2
    rw [hx]
    exact hcovM1 e he hwf ts hts
  obtain ⟨hskipM2, hcreM2, hupdM2, hdbM2⟩ :=
    foldl_processMessage_skip_existing d batchM
      ({ sd2.1 with messages_fetched := batchM.length }, sd2.2) hcovM2
  have hm2eq : m2.2 = sd2.2 := by rw [hm2fold]; exact hdbM2
  -- run-2 notification fold
  have hn2fold : n2 = batchN.foldl (processNotification false d)
      ({ m2.1 with notifications_fetched := batchN.length }, m2.2) := rfl
  have hNsd2 : m2.2.notifications = n1.2.notifications := by
    rw [hm2eq, hsd2sh]
    show db1.notifications = n1.2.notifications
    exact hNdb1
  have hcovN2 : ∀ e ∈ batchN, notifWF e = true →
      notifSynced ({ m2.1 with notifications_fetched := batchN.length }, m2.2).2.notifications d e := by
    intro e he hwf ts hts
    have hx : ({ m2.1 with notifications_fetched := batchN.length }, m2.2).2.notifications =
        n1.2.notifications := hNsd2
    rw [hx]
    exact hcovN1 e he hwf ts hts
  obtain ⟨hskipN2, hcreN2, hupdN2, hdbN2⟩ :=
    foldl_processNotification_skip_existing d batchN
      ({ m2.1 with notifications_fetched := batchN.length }, m2.2) hcovN2
  have hn2eq : n2.2 = m2.2 := by rw [hn2fold]; exact hdbN2
  -- run-2 contact fold
  have hc2fold : c2 = batchC.foldl (processContact false d)
      ({ n2.1 with contacts_fetched := batchC.length }, n2.2) := rfl
  have hCsd2 : n2.2.contacts = c1.2.contacts := by
    rw [hn2eq, hm2eq, hsd2sh]
    show db1.contacts = c1.2.contacts
    exact hCdb1
  have hcovC2 : ∀ e ∈ batchC,
      contactSynced ({ n2.1 with contacts_fetched := batchC.length }, n2.2).2.contacts d e := by
    intro e he
    show (findContact ({ n2.1 with contacts_fetched := batchC.length }, n2.2).2.contacts d e.1).isSome = true
    have hx : ({ n2.1 with contacts_fetched := batchC.length }, n2.2).2.contacts =
        c1.2.contacts := hCsd2
    rw [hx]
    exact hcovC1 e he
  obtain ⟨hskipC2, hcreC2, hupdC2, hdbC2⟩ :=
    foldl_processContact_skip_existing d batchC
      ({ n2.1 with contacts_fetched := batchC.length }, n2.2) hcovC2
  have hc2eq : c2.2 = n2.2 := by rw [hc2fold]; exact hdbC2
  -- run-2 result projections via shapes
  obtain ⟨mf2, mc2x, mu2x, ms2x, merr2x, ml2x, hm2sh⟩ := msgsPhase_shape env false d sd2
  rw [← hm2def] at hm2sh
  obtain ⟨nf2, nc2x, nu2x, ns2x, nerr2x, nl2x, hn2sh⟩ := notifsPhase_shape env false d m2
  rw [← hn2def] at hn2sh
  obtain ⟨cf2, cc2x, cu2x, cs2x, cl2x, hc2sh⟩ := contactsPhase_shape env false d n2
  rw [← hc2def] at hc2sh
  -- assemble all conclusions
  rw [hr1]
  have hstep : hard_sync_device_from_firebase env ((c1.1, db1) : SyncResult × DB).2 d false now2 =
      (c2.1, updateDevice c2.2 d (finalizeDeviceRow c2.1 now2)) := hr2
  rw [hstep]
  have htable2 : c2.2.messages = db1.messages := by
    rw [hc2eq, hn2eq, hm2eq, hsd2sh]
  have htableN2 : c2.2.notifications = db1.notifications := by
    rw [hc2eq, hn2eq, hm2eq, hsd2sh]
  have htableC2 : c2.2.contacts = db1.contacts := by
    rw [hc2eq, hn2eq, hm2eq, hsd2sh]
  refine ⟨?_, ?_, ?_, ?_, ?_, ?_, ?_, ?_, ?_, ?_, ?_⟩
  · show (updateDevice c2.2 d (finalizeDeviceRow c2.1 now2)).messages = db1.messages
    rw [show (updateDevice c2.2 d (finalizeDeviceRow c2.1 now2)).messages = c2.2.messages from rfl]
    exact htable2
  · show (updateDevice c2.2 d (finalizeDeviceRow c2.1 now2)).notifications = db1.notifications
    exact htableN2
  · show (updateDevice c2.2 d (finalizeDeviceRow c2.1 now2)).contacts = db1.contacts
    exact htableC2
  · show (updateDevice c2.2 d (finalizeDeviceRow c2.1 now2)).devices.length = db1.devices.length
    rw [updateDevice_devices_length]
    have h1 : c2.2.devices.length = sd2.2.devices.length := by
      rw [hc2eq, hn2eq, hm2eq]
    rw [h1, hlen2]
  · show c2.1.device_created = false
    have h1 : c2.1.device_created = sd2.1.device_created := by
      rw [hc2sh, hn2sh, hm2sh]
    rw [h1, hdc2]
    try rfl
  · show c2.1.messages_created = 0
    have h1 : c2.1.messages_created = m2.1.messages_created := by rw [hc2sh, hn2sh]
    have h2 : m2.1.messages_created = sd2.1.messages_created := by
      rw [hm2fold]
      rw [hcreM2]
    have h3 : sd2.1.messages_created = 0 := by rw [hsd2sh]; try rfl
    rw [h1, h2, h3]
  · show c2.1.notifications_created = 0
    have h1 : c2.1.notifications_created = n2.1.notifications_created := by rw [hc2sh]
    have h2 : n2.1.notifications_created = m2.1.notifications_created := by
      rw [hn2fold]
      rw [hcreN2]
    have h3 : m2.1.notifications_created = sd2.1.notifications_created := by rw [hm2sh]
    have h4 : sd2.1.notifications_created = 0 := by rw [hsd2sh]; try rfl
    rw [h1, h2, h3, h4]
  · show c2.1.contacts_created = 0
    have h1 : c2.1.contacts_created = n2.1.contacts_created := by
      rw [hc2fold]
      rw [hcreC2]
    have h2 : n2.1.contacts_created = sd2.1.contacts_created := by rw [hn2sh, hm2sh]
    have h3 : sd2.1.contacts_created = 0 := by rw [hsd2sh]; try rfl
    rw [h1, h2, h3]
  · show c2.1.messages_skipped = c1.1.messages_created + c1.1.messages_skipped
    have h1 : c2.1.messages_skipped = m2.1.messages_skipped := by rw [hc2sh, hn2sh]
    have h2 : m2.1.messages_skipped = sd2.1.messages_skipped + batchM.countP msgKeyed := by
      rw [hm2fold]
      rw [hskipM2]
    have h3 : sd2.1.messages_skipped = 0 := by rw [hsd2sh]; try rfl
    rw [h1, h2, h3, hcntM1]
    omega
  · show c2.1.notifications_skipped = c1.1.notifications_created + c1.1.notifications_skipped
    have h1 : c2.1.notifications_skipped = n2.1.notifications_skipped := by rw [hc2sh]
    have h2 : n2.1.notifications_skipped =
        m2.1.notifications_skipped + batchN.countP notifCounted := by
      rw [hn2fold]
      rw [hskipN2]
    have h3 : m2.1.notifications_skipped = sd2.1.notifications_skipped := by rw [hm2sh]
    have h4 : sd2.1.notifications_skipped = 0 := by rw [hsd2sh]; try rfl
    rw [h1, h2, h3, h4, hcntN1]
    omega
  · show c2.1.contacts_skipped = c1.1.contacts_created + c1.1.contacts_skipped
    have h1 : c2.1.contacts_skipped = n2.1.contacts_skipped + batchC.length := by
      rw [hc2fold]
      rw [hskipC2]
    have h2 : n2.1.contacts_skipped = sd2.1.contacts_skipped := by rw [hn2sh, hm2sh]
    have h3 : sd2.1.contacts_skipped = 0 := by rw [hsd2sh]; try rfl
    rw [h1, h2, h3, hcntC1]
    omega

/-- C4 witness: the amended idempotence statement instantiated on a concrete
store (one message, one run pair). -/
theorem C4_idempotence_witness :
    (hard_sync_device_from_firebase wEnv
        (hard_sync_device_from_firebase wEnv emptyDB "D1" false 5).2 "D1" false 6).2.messages =
      (hard_sync_device_from_firebase wEnv emptyDB "D1" false 5).2.messages ∧
    (hard_sync_device_from_firebase wEnv
        (hard_sync_device_from_firebase wEnv emptyDB "D1" false 5).2 "D1" false 6).2.notifications =
      (hard_sync_device_from_firebase wEnv emptyDB "D1" false 5).2.notifications ∧
    (hard_sync_device_from_firebase wEnv
        (hard_sync_device_from_firebase wEnv emptyDB "D1" false 5).2 "D1" false 6).2.contacts =
      (hard_sync_device_from_firebase wEnv emptyDB "D1" false 5).2.contacts ∧
    (hard_sync_device_from_firebase wEnv
        (hard_sync_device_from_firebase wEnv emptyDB "D1" false 5).2 "D1" false 6).2.devices.length =
      (hard_sync_device_from_firebase wEnv emptyDB "D1" false 5).2.devices.length ∧
    (hard_sync_device_from_firebase wEnv
        (hard_sync_device_from_firebase wEnv emptyDB "D1" false 5).2 "D1" false 6).1.device_created = false ∧
    (hard_sync_device_from_firebase wEnv
        (hard_sync_device_from_firebase wEnv emptyDB "D1" false 5).2 "D1" false 6).1.messages_created = 0 ∧
    (hard_sync_device_from_firebase wEnv
        (hard_sync_device_from_firebase wEnv emptyDB "D1" false 5).2 "D1" false 6).1.notifications_created = 0 ∧
    (hard_sync_device_from_firebase wEnv
        (hard_sync_device_from_firebase wEnv emptyDB "D1" false 5).2 "D1" false 6).1.contacts_created = 0 ∧
    (hard_sync_device_from_firebase wEnv
        (hard_sync_device_from_firebase wEnv emptyDB "D1" false 5).2 "D1" false 6).1.messages_skipped =
      (hard_sync_device_from_firebase wEnv emptyDB "D1" false 5).1.messages_created +
      (hard_sync_device_from_firebase wEnv emptyDB "D1" false 5).1.messages_skipped ∧
    (hard_sync_device_from_firebase wEnv
        (hard_sync_device_from_firebase wEnv emptyDB "D1" false 5).2 "D1" false 6).1.notifications_skipped =
      (hard_sync_device_from_firebase wEnv emptyDB "D1" false 5).1.notifications_created +
      (hard_sync_device_from_firebase wEnv emptyDB "D1" false 5).1.notifications_skipped ∧
    (hard_sync_device_from_firebase wEnv
        (hard_sync_device_from_firebase wEnv emptyDB "D1" false 5).2 "D1" false 6).1.contacts_skipped =
      (hard_sync_device_from_firebase wEnv emptyDB "D1" false 5).1.contacts_created +
      (hard_sync_device_from_firebase wEnv emptyDB "D1" false 5).1.contacts_skipped :=
  C4_idempotence wEnv emptyDB "D1" 5 6 rfl rfl

/-- A candidate path that yields no usable data: the read returns an empty or
falsy value, or raises (caught per path). -/
def pathYieldsNothing : PathResult → Prop
  | .data kvs => kvs = []
  | .empty => True
  | .raise => True

theorem tryPaths_nothing (store : String → PathResult)
    (h : ∀ p, pathYieldsNothing (store p)) :
    ∀ paths, tryPaths store paths = [] := by
  intro paths
  induction paths with
  | nil => rfl
  | cons p rest ih =>
    unfold tryPaths
    have hp := h p
    cases hsp : store p with
    | data kvs =>
      rw [hsp] at hp
      unfold pathYieldsNothing at hp
      simp [hp, ih]
    | empty => exact ih
    | raise => exact ih

/-- C5: with the SDK installed, whenever the external store is unavailable
(initialization fails) or every candidate path yields no data (empty, falsy
or raising reads), each of the four fetchers returns `.ok` with the empty
mapping — the soft-fail contract: no exception reaches the caller. -/
theorem C5_soft_fail (env : FirebaseEnv) (d : String) (limit : Option Nat)
    (hav : env.available = true)
    (hsoft : env.initOk = false ∨ ∀ p, pathYieldsNothing (env.store p)) :
    get_firebase_messages_for_device env d limit = .ok [] ∧
    get_firebase_notifications_for_device env d = .ok [] ∧
    get_firebase_contacts_for_device env d = .ok [] ∧
    get_firebase_device_info env d = .ok [] := by
  have hfetch : ∀ paths, fetchData env paths = [] := by
    intro paths
    unfold fetchData
    rcases hsoft with hinit | hpaths
    · rw [hinit]
      rfl
    · cases hio : env.initOk
      · rfl
      · simp [tryPaths_nothing env.store hpaths paths]
  have hlim : applyLimit limit [] = [] := by
    unfold applyLimit
    cases limit with
    | none => rfl
    | some n => simp
  refine ⟨?_, ?_, ?_, ?_⟩
  · unfold get_firebase_messages_for_device
    rw [hav, hfetch, hlim]
    rfl
  · unfold get_firebase_notifications_for_device
    rw [hav, hfetch]
    rfl
  · unfold get_firebase_contacts_for_device
    rw [hav, hfetch]
    rfl
  · unfold get_firebase_device_info
    rw [hav, hfetch]
    rfl

/-- C5 witness: a store on which every read returns nothing. -/
theorem C5_soft_fail_witness :
    get_firebase_messages_for_device ⟨true, true, fun _ => .empty⟩ "D1" (some 3) = .ok [] ∧
    get_firebase_notifications_for_device ⟨true, true, fun _ => .empty⟩ "D1" = .ok [] ∧
    get_firebase_contacts_for_device ⟨true, true, fun _ => .empty⟩ "D1" = .ok [] ∧
    get_firebase_device_info ⟨true, true, fun _ => .empty⟩ "D1" = .ok [] :=
  C5_soft_fail ⟨true, true, fun _ => .empty⟩ "D1" (some 3) rfl
    (Or.inr (fun _ => trivial))

/-- Store for the C6 counterexample: device info plus one message entry whose
timestamp key is not numeric. -/
def c6Env : FirebaseEnv :=
  { available := true, initOk := true
  , store := fun p =>
      if p == "device/D1" then .data [("name", .vstr "Dev")]
      else if p == "fastpay/D1/messages" then .data [("abc", .vdict [])]
      else .empty }

/-- C6 counterexample: a non-numeric timestamp key appends exactly one error
but the skipped count stays 0, refuting the claim that every per-record
malformed-data error both appends an error AND increments skipped. -/
theorem C6_counterexample :
    (hard_sync_device_from_firebase c6Env emptyDB "D1" true 5).1.errors.length = 1 ∧
    (hard_sync_device_from_firebase c6Env emptyDB "D1" true 5).1.messages_skipped = 0 ∧
    (hard_sync_device_from_firebase c6Env emptyDB "D1" true 5).1.messages_fetched = 1 :=
  ⟨rfl, rfl, rfl⟩

/-- C6 (amended): the two malformed-data cases are caught per entry and
processing continues, but they are bookkept differently: an unexpected record
shape increments the kind's skipped count and appends NO error, while a
non-numeric timestamp key appends an error string identifying the offending
key and does NOT increment skipped. In both cases the store is untouched and
the loop moves to the next entry. -/
theorem C6_malformed_entries (u : Bool) (d : String) (res : SyncResult) (db : DB)
    (e : String × FVal) :
    (∀ ts, parseIntStr e.1 = some ts → parseMsgData e.2 = none →
      processMessage u d (res, db) e =
        ({ res with messages_skipped := res.messages_skipped + 1 }, db)) ∧
    (parseIntStr e.1 = none →
      processMessage u d (res, db) e =
        ({ res with errors := res.errors ++ [msgErrString e.1] }, db)) ∧
    (∀ ts, parseIntStr e.1 = some ts → parseNotifData e.2 = none →
      processNotification u d (res, db) e =
        ({ res with notifications_skipped := res.notifications_skipped + 1 }, db)) ∧
    (parseIntStr e.1 = none →
      processNotification u d (res, db) e =
        ({ res with errors := res.errors ++ [notifErrString e.1] }, db)) := by
  refine ⟨?_, ?_, ?_, ?_⟩
  · intro ts hts hq
    unfold processMessage
    simp [hts, hq]
  · intro hts
    unfold processMessage
    simp [hts]
  · intro ts hts hq
    unfold processNotification
    simp [hts, hq]
  · intro hts
    unfold processNotification
    simp [hts]

/-- C6 witness: the bad-timestamp branch instantiated on the key `abc`. -/
theorem C6_malformed_entries_witness :
    processMessage true "D1" (({ device_id := "D1" } : SyncResult), emptyDB) ("abc", .vdict []) =
      ({ ({ device_id := "D1" } : SyncResult) with errors :=
          ({ device_id := "D1" } : SyncResult).errors ++ [msgErrString "abc"] }, emptyDB) :=
  (C6_malformed_entries true "D1" { device_id := "D1" } emptyDB ("abc", .vdict [])).2.1 rfl

/-- No row in `rows` matches the key `(d, ts')` when every row's timestamp
differs from `ts'`. -/
theorem findMessage_fresh_rows (d : String) (ts' : Int) (rows : List MessageRow)
    (hmem : ∀ m ∈ rows, m.device_id = d ∧ m.timestamp ≠ ts') :
    (findMessage rows d ts').isSome = false := by
  induction rows with
  | nil => rfl
  | cons r rs ih =>
    obtain ⟨hd, hne⟩ := hmem r (List.mem_cons_self r rs)
    unfold findMessage
    rw [List.find?_cons_of_neg]
    · exact ih (fun m hm => hmem m (List.mem_cons_of_mem r hm))
    · simp [hd, hne]

/-- C7: a message batch of one raising record (non-numeric timestamp key, at
any position) and N well-formed new records with pairwise-distinct keys, none
already present, completes over the whole batch: created/updated sum to N and
exactly one entry lands in the errors list — no abort on the first error. -/
theorem C7_error_isolation (env : FirebaseEnv) (db : DB) (d : String) (u : Bool)
    (now : Nat) (l1 l2 : List (String × FVal)) (bad : String × FVal)
    (hav : env.available = true)
    (hinfo : (fetchData env (deviceInfoPathsFor d)).isEmpty = false)
    (hbatch : fetchData env (messagePathsFor d) = l1 ++ bad :: l2)
    (hbad : parseIntStr bad.1 = none)
    (hwf : ∀ e ∈ l1 ++ l2, msgWF e = true)
    (hdis : (l1 ++ l2).Pairwise (fun a b => parseIntStr a.1 ≠ parseIntStr b.1))
    (hfresh : ∀ e ∈ l1 ++ l2, ∀ ts, parseIntStr e.1 = some ts →
      (findMessage db.messages d ts).isSome = false)
    (hnempty : fetchData env (notificationPathsFor d) = [])
    (hcempty : fetchData env (contactPathsFor d) = []) :
    (hard_sync_device_from_firebase env db d u now).1.messages_created +
      (hard_sync_device_from_firebase env db d u now).1.messages_updated =
      (l1 ++ l2).length ∧
    (hard_sync_device_from_firebase env db d u now).1.errors.length = 1 := by
  set info := fetchData env (deviceInfoPathsFor d) with hinfodef
  set s0 : SyncResult := { device_id := d } with hs0
  set sd1 := syncDevicePhase u d info s0 db with hsd1def
  set m1 := msgsPhase env u d sd1 with hm1def
  set n1 := notifsPhase env u d m1 with hn1def
  set c1 := contactsPhase env u d n1 with hc1def
  have hrun : hard_sync_device_from_firebase env db d u now =
      finalizeSync d now c1.1 c1.2 := hard_sync_run env db d u now hav hinfo
  obtain ⟨dev0, hdev0⟩ : ∃ dev, findDevice c1.2.devices d = some dev :=
    hardSyncCore_device env db d u info
  have hfin : finalizeSync d now c1.1 c1.2 =
      (c1.1, updateDevice c1.2 d (finalizeDeviceRow c1.1 now)) :=
    finalizeSync_found d now c1.1 c1.2 dev0 hdev0
  have hres : (hard_sync_device_from_firebase env db d u now).1 = c1.1 := by
    rw [hrun, hfin]
  obtain ⟨bc, bu, dl, hsd1sh⟩ := syncDevicePhase_shape u d info s0 db
  rw [← hsd1def] at hsd1sh
  have hnph : n1 = ({ m1.1 with notifications_fetched := 0 }, m1.2) := by
    rw [hn1def]
    unfold notifsPhase
    rw [hnempty]
    rfl
  have hcph : c1 = ({ n1.1 with contacts_fetched := 0 }, n1.2) := by
    rw [hc1def]
    unfold contactsPhase
    rw [hcempty]
    rfl
  -- the message phase over l1 ++ bad :: l2
  have hm1 : m1 = (l1 ++ bad :: l2).foldl (processMessage u d)
      ({ sd1.1 with messages_fetched := (l1 ++ bad :: l2).length }, sd1.2) := by
    rw [hm1def]
    unfold msgsPhase
    rw [hbatch]
  have hpwparts := List.pairwise_append.mp hdis
  -- stage A: the well-formed fresh prefix l1
  have hfreshA : ∀ e ∈ l1, ∀ ts, parseIntStr e.1 = some ts →
      (findMessage ({ sd1.1 with messages_fetched := (l1 ++ bad :: l2).length },
        sd1.2).2.messages d ts).isSome = false := by
    intro e he ts hts
    have hx : ({ sd1.1 with messages_fetched := (l1 ++ bad :: l2).length },
        sd1.2).2.messages = db.messages := by
      show sd1.2.messages = db.messages
      rw [hsd1sh]
    rw [hx]
    exact hfresh e (List.mem_append_left l2 he) ts hts
  obtain ⟨hA1, hA2, hA3, rowsA, hArw, hAmem⟩ :=
    foldl_processMessage_fresh u d l1
      ({ sd1.1 with messages_fetched := (l1 ++ bad :: l2).length }, sd1.2)
      (fun e he => hwf e (List.mem_append_left l2 he))
      hpwparts.1 hfreshA
  -- stage B: the raising entry
  have hB := processMessage_error u d
    (l1.foldl (processMessage u d)
      ({ sd1.1 with messages_fetched := (l1 ++ bad :: l2).length }, sd1.2)) bad hbad
  -- stage C: the well-formed fresh suffix l2
  have hfreshC : ∀ e ∈ l2, ∀ ts, parseIntStr e.1 = some ts →
      (findMessage ({ (l1.foldl (processMessage u d)
          ({ sd1.1 with messages_fetched := (l1 ++ bad :: l2).length }, sd1.2)).1 with
            errors := (l1.foldl (processMessage u d)
              ({ sd1.1 with messages_fetched := (l1 ++ bad :: l2).length }, sd1.2)).1.errors ++
                [msgErrString bad.1] },
        (l1.foldl (processMessage u d)
          ({ sd1.1 with messages_fetched := (l1 ++ bad :: l2).length }, sd1.2)).2).2.messages
        d ts).isSome = false := by
    intro e he ts hts
    show ((findMessage (l1.foldl (processMessage u d)
        ({ sd1.1 with messages_fetched := (l1 ++ bad :: l2).length }, sd1.2)).2.messages
        d ts).isSome = false)
    rw [hArw]
    have hx : ({ sd1.1 with messages_fetched := (l1 ++ bad :: l2).length },
        sd1.2).2.messages = db.messages := by
      show sd1.2.messages = db.messages
      rw [hsd1sh]
    rw [hx, hasMsg_append]
    have hdbpart : (findMessage db.messages d ts).isSome = false :=
      hfresh e (List.mem_append_right l1 he) ts hts
    have hrowpart : (findMessage rowsA d ts).isSome = false := by
      refine findMessage_fresh_rows d ts rowsA ?_
      intro m hm
      obtain ⟨hd, f, hf, hfts⟩ := hAmem m hm
      refine ⟨hd, ?_⟩
      have hR := hpwparts.2.2 f hf e he
      intro hcontra
      rw [hfts, hts] at hR
      exact hR (by rw [hcontra])
    rw [hdbpart, hrowpart]
    rfl
  obtain ⟨hC1, hC2, hC3, rowsC, hCrw, hCmem⟩ :=
    foldl_processMessage_fresh u d l2 _
      (fun e he => hwf e (List.mem_append_right l1 he))
      hpwparts.2.1 hfreshC
  -- assemble
  have hm1res : m1.1.messages_created = sd1.1.messages_created + l1.length + l2.length ∧
      m1.1.messages_updated = sd1.1.messages_updated ∧
      m1.1.errors = sd1.1.errors ++ [msgErrString bad.1] := by
    rw [hm1, List.foldl_append, List.foldl_cons, hB]
    refine ⟨?_, ?_, ?_⟩
    · rw [hC1]
      show (l1.foldl (processMessage u d) _).1.messages_created + l2.length = _
      rw [hA1]
    · rw [hC2]
      show (l1.foldl (processMessage u d) _).1.messages_updated = _
      rw [hA2]
    · rw [hC3]
      show (l1.foldl (processMessage u d) _).1.errors ++ [msgErrString bad.1] = _
      rw [hA3]
  have hz : sd1.1.messages_created = 0 ∧ sd1.1.messages_updated = 0 ∧
      sd1.1.errors = [] := by
    rw [hsd1sh]
    exact ⟨rfl, rfl, rfl⟩
  have hc1created : c1.1.messages_created = m1.1.messages_created := by rw [hcph, hnph]
  have hc1updated : c1.1.messages_updated = m1.1.messages_updated := by rw [hcph, hnph]
  have hc1errors : c1.1.errors = m1.1.errors := by rw [hcph, hnph]
  rw [hres]
  constructor
  · rw [hc1created, hc1updated, hm1res.1, hm1res.2.1, hz.1, hz.2.1, List.length_append]
    omega
  · rw [hc1errors, hm1res.2.2, hz.2.2]
    rfl

/-- Store for the C7 witness: two well-formed new messages around one entry
whose key cannot parse as an integer. -/
def c7Env : FirebaseEnv :=
  { available := true, initOk := true
  , store := fun p =>
      if p == "device/D1" then .data [("name", .vstr "Dev")]
      else if p == "fastpay/D1/messages" then
        .data [("100", .vstr "received~a~b"), ("oops", .vnull), ("200", .vdict [])]
      else .empty }

/-- C7 witness: the error-isolation statement instantiated with N = 2. -/
theorem C7_error_isolation_witness :
    (hard_sync_device_from_firebase c7Env emptyDB "D1" true 5).1.messages_created +
      (hard_sync_device_from_firebase c7Env emptyDB "D1" true 5).1.messages_updated =
      ([(("100" : String), FVal.vstr "received~a~b")] ++ [(("200" : String), FVal.vdict [])]).length ∧
    (hard_sync_device_from_firebase c7Env emptyDB "D1" true 5).1.errors.length = 1 :=
  C7_error_isolation c7Env emptyDB "D1" true 5
    [("100", .vstr "received~a~b")] [("200", .vdict [])] ("oops", .vnull)
    rfl rfl rfl rfl (by decide) (by decide)
    (fun e he ts hts => rfl) rfl rfl

theorem hardSyncCore_device_id (env : FirebaseEnv) (db : DB) (d : String) (u : Bool)
    (info : List (String × FVal)) :
    (hardSyncCore env db d u info).1.device_id = d := by
  unfold hardSyncCore
  obtain ⟨cf, cc, cu, cs, cl, hc⟩ := contactsPhase_shape env u d
    (notifsPhase env u d (msgsPhase env u d (syncDevicePhase u d info { device_id := d } db)))
  obtain ⟨nf, nc, nu, ns, nerr, nl, hn⟩ := notifsPhase_shape env u d
    (msgsPhase env u d (syncDevicePhase u d info { device_id := d } db))
  obtain ⟨mf, mc, mu, ms, merr, ml, hm⟩ := msgsPhase_shape env u d
    (syncDevicePhase u d info { device_id := d } db)
  obtain ⟨bc, bu, dl, hsd⟩ := syncDevicePhase_shape u d info { device_id := d } db
  rw [hc, hn, hm, hsd]

theorem hard_sync_device_id (env : FirebaseEnv) (db : DB) (d : String) (u : Bool)
    (now : Nat) :
    (hard_sync_device_from_firebase env db d u now).1.device_id = d := by
  unfold hard_sync_device_from_firebase
  by_cases hava : env.available = true
  · simp only [hava, Bool.not_true, Bool.false_eq_true, if_false]
    by_cases hinfo : (fetchData env (deviceInfoPathsFor d)).isEmpty = true
    · simp only [hinfo, if_true]
    · simp only [Bool.not_eq_true] at hinfo
      simp only [hinfo, Bool.false_eq_true, if_false]
      show (hardSyncBody env db d u now (fetchData env (deviceInfoPathsFor d))).1.device_id = d
      unfold hardSyncBody
      obtain ⟨err, dl, hfsh⟩ := finalizeSync_shape d now
        (hardSyncCore env db d u (fetchData env (deviceInfoPathsFor d))).1
        (hardSyncCore env db d u (fetchData env (deviceInfoPathsFor d))).2
      rw [hfsh]
      show (hardSyncCore env db d u (fetchData env (deviceInfoPathsFor d))).1.device_id = d
      exact hardSyncCore_device_id env db d u _
  · have hava' : env.available = false := by
      cases henv : env.available
      · rfl
      · exact absurd henv hava
    simp only [hava', Bool.not_false, if_true]

theorem fleet_fold_device_ids (env : FirebaseEnv) (u : Bool) (now : Nat)
    (ids : List String) :
    ∀ (acc : AllSyncResult × DB),
      ((ids.foldl (fleetStep env u now) acc).1.device_results).map (fun r => r.device_id) =
        (acc.1.device_results).map (fun r => r.device_id) ++ ids := by
  induction ids with
  | nil => intro acc; simp
  | cons i is ih =>
    intro acc
    rw [List.foldl_cons, ih]
    show ((fleetStep env u now acc i).1.device_results).map (fun r => r.device_id) ++ is = _
    unfold fleetStep
    try dsimp only
    rw [List.map_append]
    simp [hard_sync_device_id]

theorem dedup_toFinset (l : List String) : l.dedup.toFinset = l.toFinset := by
  ext a
  simp [List.mem_dedup]

/-- C8: under a reachable store, the fleet orchestrator's device-ID universe
is exactly the union of the locally known ids, the keys of the top-level
`device` collection, and the keys of the legacy `fastpay` collection whose
value contains a `messages`, `Notification` or `Contact` subtree; the
universe has no duplicates, and the per-device sync is invoked once per ID in
it, in order. -/
theorem C8_device_universe (env : FirebaseEnv) (db : DB) (u : Bool) (now : Nat)
    (hav : env.available = true) (hinit : env.initOk = true)
    (hdev : (env.store "device").isRaise = false)
    (hfp : (env.store "fastpay").isRaise = false) :
    (syncAllDeviceIds env db).toFinset =
      (db.devices.map (fun dev => dev.device_id)).toFinset ∪
        (deviceCollectionKeys env).toFinset ∪ (fastpayFilteredKeys env).toFinset ∧
    (syncAllDeviceIds env db).Nodup ∧
    ((hard_sync_all_devices_from_firebase env db u now).1.device_results).map
        (fun r => r.device_id) = syncAllDeviceIds env db := by
  have hfid : firebaseDeviceIds env =
      some (deviceCollectionKeys env ++ fastpayFilteredKeys env) := by
    unfold firebaseDeviceIds
    simp [hav, hinit, hdev, hfp]
  refine ⟨?_, ?_, ?_⟩
  · unfold syncAllDeviceIds
    rw [hfid]
    by_cases hemp : (deviceCollectionKeys env ++ fastpayFilteredKeys env).isEmpty = true
    · have h2 := List.append_eq_nil.mp (List.isEmpty_iff.mp hemp)
      simp only [hemp, if_true]
      rw [dedup_toFinset, h2.1, h2.2]
      simp
    · simp only [Bool.not_eq_true] at hemp
      simp only [hemp, Bool.false_eq_true, if_false]
      rw [dedup_toFinset]
      ext a
      simp [List.mem_dedup, Finset.mem_union, or_assoc]
  · unfold syncAllDeviceIds
    rw [hfid]
    by_cases hemp : (deviceCollectionKeys env ++ fastpayFilteredKeys env).isEmpty = true
    · simp only [hemp, if_true]
      exact List.nodup_dedup _
    · simp only [Bool.not_eq_true] at hemp
      simp only [hemp, Bool.false_eq_true, if_false]
      exact List.nodup_dedup _
  · unfold hard_sync_all_devices_from_firebase
    try dsimp only
    rw [fleet_fold_device_ids]
    rfl

/-- Store for the C8 witness: one locally known device `D1`, one `device`
collection key `D2`, and a `fastpay` collection holding one qualifying entry
`D3` and one non-qualifying entry. -/
def c8Env : FirebaseEnv :=
  { available := true, initOk := true
  , store := fun p =>
      if p == "device" then .data [("D2", .vdict [("name", .vstr "x")])]
      else if p == "fastpay" then
        .data [("D3", .vdict [("messages", .vdict [])]), ("junk", .vstr "nope")]
      else .empty }

/-- Database for the C8 witness: one known device `D1`. -/
def c8DB : DB := ⟨[syncedDevice "D1"], [], [], []⟩

/-- C8 witness: the universe computation instantiated on the concrete store. -/
theorem C8_device_universe_witness :
    (syncAllDeviceIds c8Env c8DB).toFinset =
      (c8DB.devices.map (fun dev => dev.device_id)).toFinset ∪
        (deviceCollectionKeys c8Env).toFinset ∪ (fastpayFilteredKeys c8Env).toFinset ∧
    (syncAllDeviceIds c8Env c8DB).Nodup ∧
    ((hard_sync_all_devices_from_firebase c8Env c8DB true 5).1.device_results).map
        (fun r => r.device_id) = syncAllDeviceIds c8Env c8DB :=
  C8_device_universe c8Env c8DB true 5 rfl rfl rfl rfl

/-- C9: a notification entry with a parsable timestamp whose normalized
package name is falsy (the empty string) is passed over entirely — the loop
body returns its accumulator unchanged: no row, no created/updated/skipped
increment, no error (utils.py lines 484-485). Consequently a run can have
`notifications_fetched` strictly exceeding created + updated + skipped plus
the number of errors, as the concrete run in the second conjunct shows. -/
theorem C9_empty_package :
    (∀ (u : Bool) (d : String) (acc : SyncResult × DB) (e : String × FVal)
      (ts : Int) (pkg ti tx : FVal),
      parseIntStr e.1 = some ts → parseNotifData e.2 = some (pkg, ti, tx) →
      truthy pkg = false →
      processNotification u d acc e = acc) ∧
    ((hard_sync_device_from_firebase c3Env emptyDB "D1" true 5).1.notifications_created +
      (hard_sync_device_from_firebase c3Env emptyDB "D1" true 5).1.notifications_updated +
      (hard_sync_device_from_firebase c3Env emptyDB "D1" true 5).1.notifications_skipped +
      (hard_sync_device_from_firebase c3Env emptyDB "D1" true 5).1.errors.length <
      (hard_sync_device_from_firebase c3Env emptyDB "D1" true 5).1.notifications_fetched) := by
  constructor
  · intro u d acc e ts pkg ti tx hts hq hpk
    unfold processNotification
    simp [hts, hq, hpk]
  · decide

/-- C9 witness: the pass-over equation instantiated on the legacy string
entry `~Title~Body`, whose first (package) field is empty. -/
theorem C9_empty_package_witness :
    processNotification true "D1" (({ device_id := "D1" } : SyncResult), emptyDB)
      ("100", .vstr "~Title~Body") = (({ device_id := "D1" } : SyncResult), emptyDB) :=
  C9_empty_package.1 true "D1" ({ device_id := "D1" }, emptyDB) ("100", .vstr "~Title~Body")
    100 (.vstr "") (.vstr "Title") (.vstr "Body") rfl rfl rfl

/-- C10: a well-formed new message entry whose direction/type field is
anything other than the strings `received` or `sent` is stored — not skipped,
no error — with `message_type = 'received'`, by both the hard-sync loop body
(utils.py lines 430-431) and the messages-only sync loop body (lines
759-770). -/
theorem C10_default_received (d : String) (res : SyncResult) (resSM : SyncMsgsResult)
    (db : DB) (u : Bool) (e : String × FVal) (ts : Int) (t0 p b r : FVal)
    (hts : parseIntStr e.1 = some ts)
    (hq : parseMsgData e.2 = some (t0, p, b, r))
    (hnr : isStrEq t0 "received" = false) (hns : isStrEq t0 "sent" = false)
    (hf : findMessage db.messages d ts = none) :
    processMessage u d (res, db) e =
      ({ res with messages_created := res.messages_created + 1 },
       { db with messages := db.messages ++ [⟨d, ts, .vstr "received", p, b, r⟩] }) ∧
    processMessageSM d (resSM, db) e =
      ({ resSM with messages_created := resSM.messages_created + 1 },
       { db with messages := db.messages ++ [⟨d, ts, .vstr "received", p, b, r⟩] }) := by
  have hnorm : normMsgType t0 = .vstr "received" := by
    unfold normMsgType
    simp [hnr, hns]
  constructor
  · unfold processMessage
    simp [hts, hq, hf, hnorm]
  · unfold processMessageSM
    simp [hts, hq, hf, hnorm]

/-- C10 witness: a dict-shaped entry with the unknown type `draft`. -/
theorem C10_default_received_witness :
    processMessage true "D1" (({ device_id := "D1" } : SyncResult), emptyDB)
      ("100", .vdict [("type", .vstr "draft"), ("phone", .vstr "5"), ("body", .vstr "b")]) =
      ({ ({ device_id := "D1" } : SyncResult) with messages_created :=
          ({ device_id := "D1" } : SyncResult).messages_created + 1 },
       { emptyDB with messages := emptyDB.messages ++
          [⟨"D1", 100, .vstr "received", .vstr "5", .vstr "b", .vbool false⟩] }) ∧
    processMessageSM "D1" (({ device_id := "D1" } : SyncMsgsResult), emptyDB)
      ("100", .vdict [("type", .vstr "draft"), ("phone", .vstr "5"), ("body", .vstr "b")]) =
      ({ ({ device_id := "D1" } : SyncMsgsResult) with messages_created :=
          ({ device_id := "D1" } : SyncMsgsResult).messages_created + 1 },
       { emptyDB with messages := emptyDB.messages ++
          [⟨"D1", 100, .vstr "received", .vstr "5", .vstr "b", .vbool false⟩] }) :=
  C10_default_received "D1" { device_id := "D1" } { device_id := "D1" } emptyDB true
    ("100", .vdict [("type", .vstr "draft"), ("phone", .vstr "5"), ("body", .vstr "b")])
    100 (.vstr "draft") (.vstr "5") (.vstr "b") (.vbool false) rfl rfl rfl rfl rfl
